import Mathlib

/-!
Verification development for the faux-foundry generation pipeline.

Shallow embedding of the Go sources:
  * `internal/dedup/dedup.go`    — canonicalization and deduplication
  * `internal/llm/timeout.go`    — retry strategy engine (`GenerateWithRetry`)
  * `internal/llm/client.go`     — error-message helpers used by the engine
  * `internal/tui/app.go`        — `JSONLWriter` / `StreamingWriter` sinks
  * `cmd` generate (`runGeneration`) — the orchestrator loop

Modelling conventions, noted where they apply:
  * Go `map[string]interface{}` values are represented as association lists;
    a Go map is unordered, so every map-consuming operation in the source
    (canonicalization, `encoding/json` marshalling, `fmt` printing) sorts the
    keys, which the embedding reproduces.  Association lists with `Nodup`
    keys represent maps; theorems carry that hypothesis where needed.
  * SHA-256 is modelled as an injective function of the serialized canonical
    bytes (tagging the serialization), per the spec's assumption that
    collisions are negligible.
  * `time.Duration` is a `Nat` of nanoseconds.  The float multiplications
    `float64(t) * 2.0` and `float64(b) * 0.5` are exact at the factors the
    program uses, and are modelled as exact rational arithmetic with
    truncation, matching Go's float-to-int conversion.
  * Go's `sort.Slice` is not stable and leaves the relative order of
    tie-compared elements unspecified-but-deterministic (for two-element
    slices it keeps input order).  The embedding uses the stable
    `List.insertionSort`, which agrees with Go on tie-free inputs and on the
    two-element tie in the counterexamples.
  * `fmt` of a function/channel value prints an address; the embedding's
    `Value.unsupported` carries an opaque tag standing for that text.
-/

set_option linter.unusedVariables false

namespace FauxFoundry

/-- Dynamic JSON-like value, the payload type of `types.Record`
(`map[string]interface{}` in Go).  `float` carries its printed
representation (the embedding never computes with floats);
`unsupported` stands for values `encoding/json` cannot marshal
(functions, channels, ...). -/
inductive Value where
  | str (s : String)
  | int (n : Int)
  | float (rep : String)
  | bool (b : Bool)
  | null
  | obj (fields : List (String × Value))
  | arr (elems : List Value)
  | unsupported (tag : String)
  deriving Repr

/-- A record: `type Record map[string]interface{}` (pkg/types).  The list
order is a representation artifact of the unordered Go map; operations that
consume records sort by key, mirroring Go. -/
abbrev Record := List (String × Value)

/-- `strings.TrimSpace`: drop leading and trailing whitespace. -/
def goTrimSpace (s : String) : String :=
  ⟨((s.data.dropWhile Char.isWhitespace).reverse.dropWhile Char.isWhitespace).reverse⟩

/-- Join strings with a separator (used for `fmt`/JSON rendering). -/
def joinSep (sep : String) : List String → String
  | [] => ""
  | [x] => x
  | x :: xs => x ++ sep ++ joinSep sep xs

/-- Key order used whenever Go sorts map keys (`sort.Strings`,
`encoding/json`, `fmt`). -/
def pairLe (a b : String × String) : Prop := a.1 ≤ b.1

instance : DecidableRel pairLe := fun a b =>
  decidable_of_iff (a.1.toList ≤ b.1.toList) String.le_iff_toList_le.symm

mutual
/-- `fmt.Sprintf("%v", value)`: Go's default rendering.  Maps print as
`map[k1:v1 k2:v2]` with sorted keys (Go ≥ 1.12), slices as `[v1 v2]`,
`nil` as `<nil>`. -/
def fmtValue : Value → String
  | .str s => s
  | .int n => toString n
  | .float rep => rep
  | .bool b => if b then "true" else "false"
  | .null => "<nil>"
  | .obj fields =>
      "map[" ++
        joinSep " " ((List.insertionSort pairLe (fmtEntries fields)).map
          (fun kv => kv.1 ++ ":" ++ kv.2)) ++ "]"
  | .arr elems => "[" ++ joinSep " " (fmtList elems) ++ "]"
  | .unsupported tag => tag

/-- Render each field of a map for `fmt` (recursion helper). -/
def fmtEntries : List (String × Value) → List (String × String)
  | [] => []
  | (k, v) :: rest => (k, fmtValue v) :: fmtEntries rest

/-- Render each element of a slice for `fmt` (recursion helper). -/
def fmtList : List Value → List String
  | [] => []
  | v :: rest => fmtValue v :: fmtList rest
end

/-- Escape one character for a JSON string literal.  The embedding escapes
the two characters that matter for injectivity (`\` and `"`); Go
additionally escapes control and HTML characters, which do not occur in
any value this development evaluates. -/
def jsonEscapeChar (c : Char) : String :=
  if c = '\\' then "\\\\" else if c = '"' then "\\\"" else String.singleton c

/-- JSON string literal for `s`. -/
def jsonQuote (s : String) : String :=
  "\"" ++ String.join (s.data.map jsonEscapeChar) ++ "\""

mutual
/-- `json.Marshal`: deterministic serialization.  Maps serialize with
lexicographically sorted keys (Go's documented map behaviour); returns
`none` when the value contains an unsupported (non-serializable) value,
modelling the marshal error. -/
def jsonMarshal : Value → Option String
  | .str s => some (jsonQuote s)
  | .int n => some (toString n)
  | .float rep => some rep
  | .bool b => some (if b then "true" else "false")
  | .null => some "null"
  | .obj fields =>
      match jsonEntries fields with
      | none => none
      | some rendered =>
          some ("\x7b" ++
            joinSep "," ((List.insertionSort pairLe rendered).map
              (fun kv => jsonQuote kv.1 ++ ":" ++ kv.2)) ++ "\x7d")
  | .arr elems =>
      match jsonList elems with
      | none => none
      | some parts => some ("[" ++ joinSep "," parts ++ "]")
  | .unsupported _ => none

/-- Serialize map fields (recursion helper); fails if any value fails. -/
def jsonEntries : List (String × Value) → Option (List (String × String))
  | [] => some []
  | (k, v) :: rest =>
      match jsonMarshal v with
      | none => none
      | some s =>
          match jsonEntries rest with
          | none => none
          | some tail => some ((k, s) :: tail)

/-- Serialize slice elements (recursion helper); fails if any fails. -/
def jsonList : List Value → Option (List String)
  | [] => some []
  | v :: rest =>
      match jsonMarshal v with
      | none => none
      | some s =>
          match jsonList rest with
          | none => none
          | some tail => some (s :: tail)
end

/-- `isComparableArray` (dedup.go): true iff every element is a string,
integer, float or boolean (empty arrays qualify). -/
def isComparableArray (arr : List Value) : Bool :=
  arr.all fun v =>
    match v with
    | .str _ => true
    | .int _ => true
    | .float _ => true
    | .bool _ => true
    | _ => false

/-- Order on map entries by key, used by `canonicalize`'s `sort.Strings`. -/
def keyLe (a b : String × Value) : Prop := a.1 ≤ b.1

instance : DecidableRel keyLe := fun a b =>
  decidable_of_iff (a.1.toList ≤ b.1.toList) String.le_iff_toList_le.symm

/-- Order on array elements by their `fmt` projection, used by
`canonicalizeValue`'s `sort.Slice`. -/
def projLe (a b : Value) : Prop := fmtValue a ≤ fmtValue b

instance : DecidableRel projLe := fun a b =>
  decidable_of_iff ((fmtValue a).toList ≤ (fmtValue b).toList) String.le_iff_toList_le.symm

mutual
/-- `Deduplicator.canonicalizeValue` (dedup.go): trim strings, recursively
canonicalize nested maps (sorted keys), canonicalize array elements and
sort the array by the string projection when all elements are comparable
scalars; other values are returned as-is. -/
def canonicalizeValue : Value → Value
  | .str s => .str (goTrimSpace s)
  | .obj fields => .obj (List.insertionSort keyLe (canonEntries fields))
  | .arr elems =>
      let canonical := canonList elems
      if isComparableArray canonical then .arr (List.insertionSort projLe canonical)
      else .arr canonical
  | .int n => .int n
  | .float rep => .float rep
  | .bool b => .bool b
  | .null => .null
  | .unsupported tag => .unsupported tag

/-- Canonicalize each field of a map (recursion helper). -/
def canonEntries : List (String × Value) → List (String × Value)
  | [] => []
  | (k, v) :: rest => (k, canonicalizeValue v) :: canonEntries rest

/-- Canonicalize each element of an array (recursion helper). -/
def canonList : List Value → List Value
  | [] => []
  | v :: rest => canonicalizeValue v :: canonList rest
end

/-- `Deduplicator.canonicalize` (dedup.go): sorted-key canonical form of a
record. -/
def canonicalize (record : Record) : Record :=
  List.insertionSort keyLe (canonEntries record)

/-- `Deduplicator.canonicalHash` (dedup.go): serialize the canonical form
and hash it; on a marshal failure, fall back to the `fmt` string
representation of the canonical form.  The `sha256:` tag models the hex
SHA-256 digest as an injective function of the serialized bytes. -/
def canonicalHash (record : Record) : String :=
  match jsonMarshal (.obj (canonicalize record)) with
  | some serialized => "sha256:" ++ serialized
  | none => fmtValue (.obj (canonicalize record))

/-- Deduplicator state (dedup.go): set of seen digests plus duplicate
counter.  The Go `map[string]bool` is modelled as a list with membership. -/
structure Deduplicator where
  seen : List String
  duplicateCount : Nat
  deriving Repr, DecidableEq

/-- `NewDeduplicator`. -/
def NewDeduplicator : Deduplicator := { seen := [], duplicateCount := 0 }

/-- `Deduplicator.IsUnique`: compute the canonical digest; if seen, count a
duplicate and reject, otherwise record it and admit. -/
def Deduplicator.IsUnique (d : Deduplicator) (record : Record) : Bool × Deduplicator :=
  let hash := canonicalHash record
  if d.seen.contains hash then
    (false, { d with duplicateCount := d.duplicateCount + 1 })
  else
    (true, { d with seen := hash :: d.seen })

/-- `Deduplicator.FilterUnique`: apply `IsUnique` in input order, keeping
survivors in order. -/
def Deduplicator.FilterUnique (d : Deduplicator) : List Record → List Record × Deduplicator
  | [] => ([], d)
  | r :: rest =>
      let step := d.IsUnique r
      let tail := step.2.FilterUnique rest
      (if step.1 then r :: tail.1 else tail.1, tail.2)

/-- `Deduplicator.GetUniqueCount`. -/
def Deduplicator.GetUniqueCount (d : Deduplicator) : Nat := d.seen.length

/-! ## Retry strategy engine (internal/llm/timeout.go) -/

/-- `findInString`: simple substring scan. -/
def findInString (s substr : String) : Bool :=
  (List.range (s.data.length - substr.data.length + 1)).any fun i =>
    (s.data.drop i).take substr.data.length == substr.data

/-- `contains` (timeout.go): substring test, transcribed clause by clause
from the Go expression. -/
def goStrContains (s substr : String) : Bool :=
  decide (substr.data.length ≤ s.data.length) &&
    (s == substr ||
      (decide (substr.data.length < s.data.length) &&
        ((s.data.take substr.data.length == substr.data) ||
          (s.data.drop (s.data.length - substr.data.length) == substr.data) ||
          findInString s substr)))

/-- `isTimeoutError`: message-based timeout classification. -/
def isTimeoutError (err : String) : Bool :=
  goStrContains err "timeout" || goStrContains err "deadline exceeded" ||
    goStrContains err "context canceled"

/-- `isParsingError`: message-based parse-failure classification. -/
def isParsingError (errStr : String) : Bool :=
  goStrContains errStr "parse" || goStrContains errStr "json" ||
    goStrContains errStr "unmarshal" || goStrContains errStr "invalid character"

/-- `isConnectionError`: message-based connectivity classification. -/
def isConnectionError (errStr : String) : Bool :=
  goStrContains errStr "connection" || goStrContains errStr "network" ||
    goStrContains errStr "refused" || goStrContains errStr "unreachable"

/-- `TimeoutStrategy` (timeout.go). -/
inductive TimeoutStrategy where
  | StrategyRetry
  | StrategyReduce
  | StrategySimplify
  | StrategyFallback
  deriving Repr, DecidableEq

/-- `RetryConfig` (timeout.go).  Durations are nanoseconds; the two float
factors are carried as exact rationals (`2.0` and `0.5` are exact in
`float64`, so the arithmetic below matches Go's). -/
structure RetryConfig where
  MaxRetries : Nat
  BaseTimeout : Nat
  MaxTimeout : Nat
  BackoffMultiplierNum : Nat
  BackoffMultiplierDen : Nat
  ReduceFactorNum : Nat
  ReduceFactorDen : Nat
  MinBatchSize : Int
  deriving Repr, DecidableEq

/-- `DefaultRetryConfig`: 3 retries, 30s base / 5m max timeout, backoff ×2,
batch reduce ×0.5, min batch 1. -/
def DefaultRetryConfig : RetryConfig :=
  { MaxRetries := 3
    BaseTimeout := 30000000000
    MaxTimeout := 300000000000
    BackoffMultiplierNum := 2
    BackoffMultiplierDen := 1
    ReduceFactorNum := 1
    ReduceFactorDen := 2
    MinBatchSize := 1 }

/-- `determineStrategy` (timeout.go): classify the error text and pick a
strategy from the attempt number and current batch size.  Note that no
branch returns `StrategyFallback`. -/
def determineStrategy (config : RetryConfig) (err : String) (attempt : Nat)
    (currentBatchSize : Int) : TimeoutStrategy :=
  if isTimeoutError err then
    if attempt = 1 then .StrategyRetry
    else if config.MinBatchSize < currentBatchSize then .StrategyReduce
    else .StrategySimplify
  else if isParsingError err then
    if attempt ≤ 2 then .StrategyRetry else .StrategySimplify
  else if isConnectionError err then .StrategyRetry
  else .StrategyRetry

/-- `increaseTimeout` (timeout.go): exponential backoff capped at
`MaxTimeout`. -/
def increaseTimeout (config : RetryConfig) (current : Nat) : Nat :=
  let next := current * config.BackoffMultiplierNum / config.BackoffMultiplierDen
  if config.MaxTimeout < next then config.MaxTimeout else next

/-- `types.Field` (pkg/types).  The Go field named Type is rendered `Typ`
because Type is a Lean keyword. -/
structure Field where
  Name : String
  Typ : String
  Description : String := ""
  Required : Bool := false
  Pattern : String := ""
  Range : List Int := []
  Values : List String := []
  deriving Repr, DecidableEq

/-- The slice of `types.Specification` the retry engine reads: the model
batch size, the sampling temperature (milli-units: Go's `0.3` becomes
`300`), the domain and the field list. -/
structure Specification where
  BatchSize : Int
  TemperatureMilli : Int := 700
  Domain : String := ""
  Fields : List Field := []
  deriving Repr, DecidableEq

/-- `simplifySpec` (timeout.go): lower the temperature, keep only required
fields (or the first three when none are required), rename the domain. -/
def simplifySpec (spec : Specification) : Specification :=
  let requiredFields := spec.Fields.filter (·.Required)
  let keptFields :=
    if requiredFields.length = 0 then spec.Fields.take (min 3 spec.Fields.length)
    else requiredFields
  { spec with
      TemperatureMilli := min spec.TemperatureMilli 300
      Fields := keptFields
      Domain := "Simplified " ++ spec.Domain }

/-- Zero-pad a natural to `width` digits (Go's `%0Nd`). -/
def padNat (width : Nat) (n : Nat) : String :=
  let s := toString n
  if s.length < width then String.mk (List.replicate (width - s.length) '0') ++ s else s

/-- One capital letter of `"ABCDEFGHIJKLMNOPQRSTUVWXYZ"`. -/
def capitalLetter (i : Nat) : String :=
  String.singleton ("ABCDEFGHIJKLMNOPQRSTUVWXYZ".data.getD i 'A')

/-- `generatePatternString` (client.go): canned generators for the known
regex patterns, keyed on the literal pattern text. -/
def generatePatternString (pattern : String) (seed : Nat) : String :=
  if pattern = "^PAT[0-9]\x7b8\x7d$" then "PAT" ++ padNat 8 (10000000 + seed)
  else if pattern = "^[A-Z]\x7b3\x7d[0-9]\x7b9\x7d$" then "ABC" ++ padNat 9 (100000000 + seed)
  else if pattern = "^[0-9]\x7b3\x7d-[0-9]\x7b2\x7d-[0-9]\x7b4\x7d$" then
    padNat 3 (100 + seed % 900) ++ "-" ++ padNat 2 (seed % 100) ++ "-" ++ padNat 4 (1000 + seed % 9000)
  else if pattern = "^[0-9]\x7b5\x7d(-[0-9]\x7b4\x7d)?$" then
    if seed % 2 = 0 then padNat 5 (10000 + seed % 90000)
    else padNat 5 (10000 + seed % 90000) ++ "-" ++ padNat 4 (1000 + seed % 9000)
  else if pattern = "^\\([0-9]\x7b3\x7d\\) [0-9]\x7b3\x7d-[0-9]\x7b4\x7d$" then
    "(" ++ padNat 3 (200 + seed % 800) ++ ") " ++ padNat 3 (100 + seed % 900) ++ "-" ++ padNat 4 (1000 + seed % 9000)
  else if pattern = "^GRP[0-9]\x7b6\x7d[A-Z]\x7b2\x7d$" then
    "GRP" ++ padNat 6 (100000 + seed % 900000) ++ capitalLetter (seed % 26) ++ capitalLetter ((seed + 1) % 26)
  else if pattern = "^POL[0-9]\x7b10\x7d$" then "POL" ++ padNat 10 (1000000000 + seed % 9000000000)
  else if pattern = "^EDI[0-9]\x7b12\x7d$" then "EDI" ++ padNat 12 seed
  else if pattern = "^[0-9]\x7b5\x7d$" then padNat 5 (10000 + seed % 90000)
  else if pattern = "^[0-9]\x7b10\x7d$" then padNat 10 (1000000000 + seed % 9000000000)
  else if pattern = "^[0-9]\x7b9\x7d$" then padNat 9 (100000000 + seed % 900000000)
  else if pattern = "^[0-9]\x7b2\x7d-[0-9]\x7b7\x7d$" then
    padNat 2 (10 + seed % 90) ++ "-" ++ padNat 7 (1000000 + seed % 9000000)
  else if pattern = "^CH[0-9]\x7b6\x7d$" then "CH" ++ padNat 6 (100000 + seed % 900000)
  else if pattern = "^BTH[0-9]\x7b8\x7d$" then "BTH" ++ padNat 8 (10000000 + seed % 90000000)
  else "pattern_match_" ++ toString seed

/-- Abstraction of the impure or float-valued parts of
`generateFallbackData`: `time.Now`-derived date strings and Go float
formatting.  No claim depends on these values. -/
structure FallbackEnv where
  dateStr : Nat → String
  datetimeStr : Nat → String
  floatRange : Int → Int → Nat → String
  floatDefault : Nat → String

/-- Map-insertion on the association-list representation of a record
(overwrite if the key exists, append otherwise). -/
def recordSet (r : Record) (k : String) (v : Value) : Record :=
  if (r.map Prod.fst).contains k then
    r.map fun kv => if kv.1 = k then (k, v) else kv
  else r ++ [(k, v)]

/-- The value `generateFallbackData` assigns for one field at index `i`
(`none` when the Go switch assigns nothing: an `enum` with no values).
`Int.tmod` matches Go's truncated `%`; Go panics when the range is empty,
a corner no claim exercises. -/
def fallbackFieldValue (env : FallbackEnv) (field : Field) (i : Nat) : Option Value :=
  if field.Typ = "string" then
    if field.Pattern ≠ "" then some (.str (generatePatternString field.Pattern i))
    else some (.str ("fallback_" ++ field.Name ++ "_" ++ toString i))
  else if field.Typ = "email" then
    some (.str ("user" ++ toString i ++ "@example.com"))
  else if field.Typ = "integer" then
    if field.Range.length = 2 then
      some (.int (field.Range.getD 0 0 +
        Int.tmod (Int.ofNat i) (field.Range.getD 1 0 - field.Range.getD 0 0)))
    else some (.int (Int.ofNat i + 1))
  else if field.Typ = "float" then
    if field.Range.length = 2 then
      some (.float (env.floatRange (field.Range.getD 0 0) (field.Range.getD 1 0) i))
    else some (.float (env.floatDefault i))
  else if field.Typ = "boolean" then some (.bool (i % 2 = 0))
  else if field.Typ = "enum" then
    if field.Values.length ≠ 0 then
      some (.str (field.Values.getD (i % field.Values.length) ""))
    else none
  else if field.Typ = "date" then some (.str (env.dateStr i))
  else if field.Typ = "datetime" then some (.str (env.datetimeStr i))
  else some (.str ("fallback_" ++ field.Typ ++ "_" ++ toString i))

/-- `generateFallbackData` (timeout.go): `count` records synthesized
procedurally from the field schema. -/
def generateFallbackData (env : FallbackEnv) (fields : List Field) (count : Int) :
    List Record :=
  (List.range count.toNat).map fun i =>
    fields.foldl
      (fun record field =>
        match fallbackFieldValue env field i with
        | some v => recordSet record field.Name v
        | none => record)
      []

/-- One request issued to the backend (`generateBatch`): whether the spec
was the simplified copy, the record count asked for, the timeout on the
call's context, and whether that context had already been cancelled (the
`StrategySimplify` retry reuses `batchCtx` after `cancel()`). -/
structure BatchReq where
  simplified : Bool
  count : Int
  timeoutNs : Nat
  ctxCanceled : Bool
  deriving Repr, DecidableEq

/-- The backend (`OllamaClient.GenerateBasic` behind `generateBatch`),
abstracted as an oracle indexed by a global call counter. -/
abbrev Backend := Nat → BatchReq → Except String (List Record)

/-- The `for remaining > 0 && attempt < maxRetries` loop of
`GenerateWithRetry` (timeout.go), with a log of the issued requests and
the running call counter. -/
def generateWithRetryLoop (config : RetryConfig) (env : FallbackEnv)
    (spec : Specification) (backend : Backend) (allRecords : List Record)
    (remaining : Int) (currentBatchSize : Int) (attempt : Nat)
    (currentTimeout : Nat) (callIdx : Nat) (callLog : List BatchReq) :
    List Record × List BatchReq × Nat :=
  if h : 0 < remaining ∧ attempt < config.MaxRetries then
    let batchSize := min currentBatchSize remaining
    let attempt1 := attempt + 1
    let req : BatchReq := ⟨false, batchSize, currentTimeout, false⟩
    match backend callIdx req with
    | .error e =>
        match determineStrategy config e attempt1 currentBatchSize with
        | .StrategyRetry =>
            generateWithRetryLoop config env spec backend allRecords remaining
              currentBatchSize attempt1 (increaseTimeout config currentTimeout)
              (callIdx + 1) (callLog ++ [req])
        | .StrategyReduce =>
            generateWithRetryLoop config env spec backend allRecords remaining
              (max 1 ((currentBatchSize * config.ReduceFactorNum).tdiv config.ReduceFactorDen))
              attempt1 config.BaseTimeout (callIdx + 1) (callLog ++ [req])
        | .StrategySimplify =>
            let req2 : BatchReq := ⟨true, batchSize, currentTimeout, true⟩
            match backend (callIdx + 1) req2 with
            | .error _ =>
                generateWithRetryLoop config env spec backend allRecords remaining
                  currentBatchSize attempt1 currentTimeout (callIdx + 2)
                  (callLog ++ [req, req2])
            | .ok [] =>
                generateWithRetryLoop config env spec backend allRecords remaining
                  currentBatchSize attempt1 currentTimeout (callIdx + 2)
                  (callLog ++ [req, req2])
            | .ok (r :: rs) =>
                generateWithRetryLoop config env spec backend (allRecords ++ r :: rs)
                  (remaining - (r :: rs).length) currentBatchSize 0 config.BaseTimeout
                  (callIdx + 2) (callLog ++ [req, req2])
        | .StrategyFallback =>
            match generateFallbackData env spec.Fields batchSize with
            | [] =>
                generateWithRetryLoop config env spec backend allRecords remaining
                  currentBatchSize attempt1 currentTimeout (callIdx + 1) (callLog ++ [req])
            | r :: rs =>
                generateWithRetryLoop config env spec backend (allRecords ++ r :: rs)
                  (remaining - (r :: rs).length) currentBatchSize 0 config.BaseTimeout
                  (callIdx + 1) (callLog ++ [req])
    | .ok [] =>
        generateWithRetryLoop config env spec backend allRecords remaining
          currentBatchSize attempt1 currentTimeout (callIdx + 1) (callLog ++ [req])
    | .ok (r :: rs) =>
        generateWithRetryLoop config env spec backend (allRecords ++ r :: rs)
          (remaining - (r :: rs).length) currentBatchSize 0 config.BaseTimeout
          (callIdx + 1) (callLog ++ [req])
  else (allRecords, callLog, callIdx)
termination_by (remaining.toNat, config.MaxRetries - attempt)
decreasing_by
  all_goals simp_wf
  all_goals first
    | exact Prod.Lex.left _ _ (by omega)
    | exact Prod.Lex.right _ (by omega)

/-- Outcome of one `GenerateWithRetry` call: the returned records or error,
the requests issued, and the next free backend-call index. -/
structure RetryResult where
  result : Except String (List Record)
  calls : List BatchReq
  nextCall : Nat

/-- `GenerateWithRetry` (timeout.go): run the retry loop starting from the
spec's batch size and the base timeout; if no records at all were
gathered, fail. -/
def GenerateWithRetry (config : RetryConfig) (env : FallbackEnv)
    (spec : Specification) (backend : Backend) (count : Int) (callIdx : Nat) :
    RetryResult :=
  let out := generateWithRetryLoop config env spec backend [] count spec.BatchSize 0
    config.BaseTimeout callIdx []
  if out.1.length = 0 then
    { result := .error ("failed to generate any records after " ++
        toString config.MaxRetries ++ " attempts")
      calls := out.2.1
      nextCall := out.2.2 }
  else
    { result := .ok out.1, calls := out.2.1, nextCall := out.2.2 }

/-! ## Sinks (internal/tui/app.go) -/

/-- Model of an open `*os.File` output: the chunks written so far and the
closed flag.  `os.File` operations on a closed descriptor return the
`ErrClosed` error. -/
structure FileSt where
  written : List String
  closed : Bool
  deriving Repr, DecidableEq

/-- `os.File.Write`. -/
def FileSt.write (f : FileSt) (chunk : String) : Except String Unit × FileSt :=
  if f.closed then (.error "file already closed", f)
  else (.ok (), { f with written := f.written ++ [chunk] })

/-- `os.File.Close`. -/
def FileSt.close (f : FileSt) : Except String Unit × FileSt :=
  if f.closed then (.error "file already closed", f)
  else (.ok (), { f with closed := true })

/-- The `io.WriteCloser` held by `JSONLWriter`: `os.Stdout`, a plain file,
or the `gzipWriteCloser` wrapper (gzip stream over a file).  The gzip
footer bytes written on closing the compressed stream are represented by
an opaque marker chunk. -/
inductive WriterHandle where
  | stdoutW (written : List String)
  | fileW (f : FileSt)
  | gzipW (gzClosed : Bool) (f : FileSt)
  deriving Repr, DecidableEq

/-- `Write` on the underlying handle. -/
def WriterHandle.write : WriterHandle → String → Except String Unit × WriterHandle
  | .stdoutW out, chunk => (.ok (), .stdoutW (out ++ [chunk]))
  | .fileW f, chunk =>
      match f.write chunk with
      | (res, f1) => (res, .fileW f1)
  | .gzipW gc f, chunk =>
      match f.write chunk with
      | (res, f1) => (res, .gzipW gc f1)

/-- `Close` on the underlying handle.  `gzipWriteCloser.Close` closes the
gzip stream (writing the footer; a second close of the gzip stream is a
no-op returning nil) and then closes the file, returning the gzip error
if any (after closing the file). -/
def WriterHandle.close : WriterHandle → Except String Unit × WriterHandle
  | .stdoutW out => (.ok (), .stdoutW out)
  | .fileW f =>
      match f.close with
      | (res, f1) => (res, .fileW f1)
  | .gzipW gc f =>
      if gc then
        match f.close with
        | (res, f1) => (res, .gzipW true f1)
      else
        match f.write "<gzip stream footer>" with
        | (.ok _, f1) =>
            match f1.close with
            | (res, f2) => (res, .gzipW true f2)
        | (.error e, f1) =>
            match f1.close with
            | (_, f2) => (.error e, .gzipW true f2)

/-- `JSONLWriter` (app.go): JSON-lines encoder over a write handle. -/
structure JSONLWriter where
  writer : WriterHandle
  path : String
  compressed : Bool
  recordCount : Nat
  deriving Repr, DecidableEq

/-- `strings.HasSuffix`. -/
def goHasSuffix (s suffix : String) : Bool := suffix.data.isSuffixOf s.data

/-- `NewJSONLWriter` (app.go): stdout for an empty or `stdout` path, a
gzip-wrapped file for a `.gz` path, a plain file otherwise.  File creation
is assumed to succeed (the environment errors are outside the model). -/
def NewJSONLWriter (path : String) : JSONLWriter :=
  if path = "stdout" ∨ path = "" then
    { writer := .stdoutW [], path := path, compressed := false, recordCount := 0 }
  else if goHasSuffix path ".gz" then
    { writer := .gzipW false ⟨[], false⟩, path := path, compressed := true, recordCount := 0 }
  else
    { writer := .fileW ⟨[], false⟩, path := path, compressed := false, recordCount := 0 }

/-- `JSONLWriter.Write` (app.go): `encoder.Encode(record)` marshals the
record (a Go map, hence sorted keys) followed by a newline; failures are
wrapped as `failed to encode record`. -/
def JSONLWriter.Write (w : JSONLWriter) (record : Record) :
    Except String Unit × JSONLWriter :=
  match jsonMarshal (.obj record) with
  | none => (.error "failed to encode record: json: unsupported type", w)
  | some line =>
      match w.writer.write (line ++ "\n") with
      | (.error e, w1) => (.error ("failed to encode record: " ++ e), { w with writer := w1 })
      | (.ok _, w1) => (.ok (), { w with writer := w1, recordCount := w.recordCount + 1 })

/-- `JSONLWriter.Close` (app.go): close the underlying writer unless it is
`os.Stdout`. -/
def JSONLWriter.Close (w : JSONLWriter) : Except String Unit × JSONLWriter :=
  match w.writer with
  | .stdoutW _ => (.ok (), w)
  | other =>
      match other.close with
      | (res, w1) => (res, { w with writer := w1 })

/-- `StreamingWriter` (app.go): buffering layer over an abstract underlying
writer (instantiated with `JSONLWriter` in the pipeline). -/
structure StreamingWriter (σ : Type) where
  writer : σ
  buffer : List Record
  bufferSize : Nat

/-- Write each buffered record to the underlying writer, stopping at the
first error (the `for` body of `StreamingWriter.Flush`). -/
def streamWriteList {σ : Type} (uw : σ → Record → Except String Unit × σ) :
    σ → List Record → Except String Unit × σ
  | u, [] => (.ok (), u)
  | u, r :: rs =>
      match uw u r with
      | (.error e, u1) => (.error e, u1)
      | (.ok _, u1) => streamWriteList uw u1 rs

/-- `StreamingWriter.Flush` (app.go): write all buffered records; the
buffer is cleared only after the whole loop succeeds (on error the
already-written records stay written and the buffer is left as-is, as in
Go). -/
def StreamingWriter.Flush {σ : Type} (uw : σ → Record → Except String Unit × σ)
    (s : StreamingWriter σ) : Except String Unit × StreamingWriter σ :=
  if s.buffer.length = 0 then (.ok (), s)
  else
    match streamWriteList uw s.writer s.buffer with
    | (.error e, u1) => (.error e, { s with writer := u1 })
    | (.ok _, u1) => (.ok (), { s with writer := u1, buffer := [] })

/-- `StreamingWriter.Write` (app.go): append to the buffer and flush once
the buffer has reached `bufferSize`. -/
def StreamingWriter.Write {σ : Type} (uw : σ → Record → Except String Unit × σ)
    (s : StreamingWriter σ) (record : Record) :
    Except String Unit × StreamingWriter σ :=
  let s1 := { s with buffer := s.buffer ++ [record] }
  if s1.bufferSize ≤ s1.buffer.length then StreamingWriter.Flush uw s1
  else (.ok (), s1)

/-- `StreamingWriter.Close` (app.go): flush, then close the underlying
writer. -/
def StreamingWriter.Close {σ : Type} (uw : σ → Record → Except String Unit × σ)
    (uc : σ → Except String Unit × σ) (s : StreamingWriter σ) :
    Except String Unit × StreamingWriter σ :=
  match StreamingWriter.Flush uw s with
  | (.error e, s1) => (.error e, s1)
  | (.ok _, s1) =>
      match uc s1.writer with
      | (res, u1) => (res, { s1 with writer := u1 })

/-- `NewStreamingWriter` (app.go). -/
def NewStreamingWriter (path : String) (bufferSize : Nat) : StreamingWriter JSONLWriter :=
  { writer := NewJSONLWriter path, buffer := [], bufferSize := bufferSize }

/-! ## Orchestrator (`runGeneration`, generate command) -/

/-- The sink interface the orchestrator loop uses (`Write`/`Flush`/`Close`
on the abstract writer). -/
structure SinkOps (τ : Type) where
  write : τ → Record → Except String Unit × τ
  flush : τ → Except String Unit × τ
  close : τ → Except String Unit × τ

/-- The sink instantiation `runGeneration` actually builds:
`NewStreamingWriter(path, 100)` over a `JSONLWriter`. -/
def streamSinkOps : SinkOps (StreamingWriter JSONLWriter) :=
  { write := StreamingWriter.Write JSONLWriter.Write
    flush := StreamingWriter.Flush JSONLWriter.Write
    close := StreamingWriter.Close JSONLWriter.Write JSONLWriter.Close }

/-- Orchestrator state: the generated counter (`job.Progress.Generated`),
the batch counter, the deduplicator, the sink, and the global backend-call
counter.  The wall-clock progress fields (elapsed/rate/ETA) are not
modelled. -/
structure GenState (τ : Type) where
  generated : Nat
  batchCount : Nat
  dedup : Deduplicator
  sink : τ
  nextCall : Nat

/-- The per-survivor write loop of `runGeneration` (lines 295–316): write
each unique record, aborting on the first sink error, incrementing
`generated` after each successful write. -/
def writeRecords {τ : Type} (ops : SinkOps τ) (st : GenState τ) :
    List Record → Except String Unit × GenState τ
  | [] => (.ok (), st)
  | r :: rs =>
      match ops.write st.sink r with
      | (.error e, sink1) =>
          (.error ("failed to write record: " ++ e), { st with sink := sink1 })
      | (.ok _, sink1) =>
          writeRecords ops { st with sink := sink1, generated := st.generated + 1 } rs

/-- The `for generated < target` loop of `runGeneration` plus the final
flush.  `itersLeft` models the overall wall-clock context: the
`ctx.Done()` check fires once the iteration budget is exhausted (the Go
deadline elapses after some unknown number of iterations, which theorems
quantify over). -/
def runGenerationLoop {τ : Type} (config : RetryConfig) (env : FallbackEnv)
    (spec : Specification) (backend : Backend) (ops : SinkOps τ) (target : Int)
    (timeoutStr : String) : Nat → GenState τ → Except String Unit × GenState τ
  | itersLeft, st =>
    if (st.generated : Int) < target then
      match itersLeft with
      | 0 => (.error ("generation timed out after " ++ timeoutStr), st)
      | itersLeft1 + 1 =>
          let remaining := target - (st.generated : Int)
          let batchSize := if remaining < spec.BatchSize then remaining else spec.BatchSize
          let st1 := { st with batchCount := st.batchCount + 1 }
          let gen := GenerateWithRetry config env spec backend batchSize st1.nextCall
          let st2 := { st1 with nextCall := gen.nextCall }
          match gen.result with
          | .error e =>
              (.error ("failed to generate batch " ++ toString st1.batchCount ++ ": " ++ e), st2)
          | .ok records =>
              let filtered := st2.dedup.FilterUnique records
              let st3 := { st2 with dedup := filtered.2 }
              match writeRecords ops st3 filtered.1 with
              | (.error e, st4) => (.error e, st4)
              | (.ok _, st4) =>
                  runGenerationLoop config env spec backend ops target timeoutStr itersLeft1 st4
    else
      match ops.flush st.sink with
      | (.error e, sink1) =>
          (.error ("failed to flush output: " ++ e), { st with sink := sink1 })
      | (.ok _, sink1) => (.ok (), { st with sink := sink1 })

/-- `runGeneration` (generate command), from the start of the generation
loop: run the loop from a fresh state and then run the deferred
`writer.Close()` (whose error the `defer` discards). -/
def runGeneration {τ : Type} (config : RetryConfig) (env : FallbackEnv)
    (spec : Specification) (backend : Backend) (ops : SinkOps τ) (sink0 : τ)
    (target : Int) (timeoutStr : String) (iters : Nat) :
    Except String Unit × GenState τ :=
  let st0 : GenState τ :=
    { generated := 0, batchCount := 0, dedup := NewDeduplicator, sink := sink0, nextCall := 0 }
  let out := runGenerationLoop config env spec backend ops target timeoutStr iters st0
  match ops.close out.2.sink with
  | (_, sink1) => (out.1, { out.2 with sink := sink1 })

/-! ## Helper lemmas: sorting by a projection -/

instance : IsTotal (String × Value) keyLe := ⟨fun a b => le_total a.1 b.1⟩

instance : IsTrans (String × Value) keyLe := ⟨fun _ _ _ h1 h2 => le_trans h1 h2⟩

instance : IsTotal Value projLe := ⟨fun a b => le_total (fmtValue a) (fmtValue b)⟩

instance : IsTrans Value projLe := ⟨fun _ _ _ h1 h2 => le_trans h1 h2⟩

instance : IsTotal (String × String) pairLe := ⟨fun a b => le_total a.1 b.1⟩

instance : IsTrans (String × String) pairLe := ⟨fun _ _ _ h1 h2 => le_trans h1 h2⟩

/-- Sorting by a projection is permutation-invariant as soon as the
projections are pairwise distinct: two permuted lists have the same
insertion sort. -/
theorem insertionSort_eq_of_perm_proj {α β : Type} [LinearOrder β] (f : α → β)
    (r : α → α → Prop) [DecidableRel r] (hr : ∀ a b, r a b ↔ f a ≤ f b)
    {l₁ l₂ : List α} (hp : l₁.Perm l₂) (hn : (l₁.map f).Nodup) :
    List.insertionSort r l₁ = List.insertionSort r l₂ := by
  haveI : IsTotal α r :=
    ⟨fun a b => by
      rcases le_total (f a) (f b) with h | h
      · exact Or.inl ((hr a b).2 h)
      · exact Or.inr ((hr b a).2 h)⟩
  haveI : IsTrans α r :=
    ⟨fun a b c hab hbc => (hr a c).2 (le_trans ((hr a b).1 hab) ((hr b c).1 hbc))⟩
  haveI hanti : IsAntisymm α (fun a b => f a < f b) :=
    ⟨fun a b h1 h2 => absurd (lt_trans h1 h2) (lt_irrefl _)⟩
  have hperm : (List.insertionSort r l₁).Perm (List.insertionSort r l₂) :=
    (List.perm_insertionSort r l₁).trans (hp.trans (List.perm_insertionSort r l₂).symm)
  have strictOf : ∀ (m : List α), (m.map f).Nodup →
      m.Sorted r → m.Sorted (fun a b => f a < f b) := by
    intro m hm hs
    have hle : m.Pairwise (fun a b => f a ≤ f b) := hs.imp fun h => (hr _ _).1 h
    have hne : m.Pairwise (fun a b => f a ≠ f b) := List.pairwise_map.1 hm
    exact (hle.and hne).imp fun h => lt_of_le_of_ne h.1 h.2
  have hn₁ : ((List.insertionSort r l₁).map f).Nodup :=
    (((List.perm_insertionSort r l₁).map f).nodup_iff).2 hn
  have hn₂ : ((List.insertionSort r l₂).map f).Nodup :=
    ((hperm.map f).nodup_iff).1 hn₁
  exact @List.eq_of_perm_of_sorted α (fun a b => f a < f b) hanti _ _ hperm
    (strictOf _ hn₁ (List.sorted_insertionSort r l₁))
    (strictOf _ hn₂ (List.sorted_insertionSort r l₂))

/-- Key-sorting of map entries is invariant under permutation when the
keys are distinct. -/
theorem insertionSort_keyLe_eq_of_perm {l₁ l₂ : List (String × Value)}
    (hp : l₁.Perm l₂) (hn : (l₁.map Prod.fst).Nodup) :
    List.insertionSort keyLe l₁ = List.insertionSort keyLe l₂ :=
  insertionSort_eq_of_perm_proj Prod.fst keyLe (fun _ _ => Iff.rfl) hp hn

/-- Same for the rendered `String × String` entries used by `jsonMarshal`
and `fmtValue`. -/
theorem insertionSort_pairLe_eq_of_perm {l₁ l₂ : List (String × String)}
    (hp : l₁.Perm l₂) (hn : (l₁.map Prod.fst).Nodup) :
    List.insertionSort pairLe l₁ = List.insertionSort pairLe l₂ :=
  insertionSort_eq_of_perm_proj Prod.fst pairLe (fun _ _ => Iff.rfl) hp hn

/-- Projection-sorting of array elements is invariant under permutation
when the `fmt` projections are distinct. -/
theorem insertionSort_projLe_eq_of_perm {l₁ l₂ : List Value}
    (hp : l₁.Perm l₂) (hn : (l₁.map fmtValue).Nodup) :
    List.insertionSort projLe l₁ = List.insertionSort projLe l₂ :=
  insertionSort_eq_of_perm_proj fmtValue projLe (fun _ _ => Iff.rfl) hp hn

/-- `all` is permutation-invariant. -/
theorem perm_all_eq {α : Type} {p : α → Bool} {l₁ l₂ : List α} (hp : l₁.Perm l₂) :
    l₁.all p = l₂.all p := by
  induction hp with
  | nil => rfl
  | cons x _ ih => simp [List.all_cons, ih]
  | swap x y l =>
      simp only [List.all_cons, ← Bool.and_assoc]
      rw [Bool.and_comm (p y) (p x)]
  | trans _ _ ih₁ ih₂ => rw [ih₁, ih₂]

/-- If mapping `f` over `l` returns `l` itself, `f` fixes every element. -/
theorem map_eq_self_forall {α : Type} {f : α → α} :
    ∀ {l : List α}, l.map f = l → ∀ x ∈ l, f x = x
  | [], _, x, hx => absurd hx (List.not_mem_nil x)
  | a :: t, h, x, hx => by
      rw [List.map_cons, List.cons.injEq] at h
      rcases List.mem_cons.1 hx with rfl | hx2
      · exact h.1
      · exact map_eq_self_forall h.2 x hx2

/-! ## Canonicalization helper equations -/

/-- `canonEntries` is `map` of per-value canonicalization. -/
theorem canonEntries_eq_map (l : List (String × Value)) :
    canonEntries l = l.map fun kv => (kv.1, canonicalizeValue kv.2) := by
  induction l with
  | nil => rfl
  | cons kv rest ih => cases kv; simp [canonEntries, ih]

/-- `canonList` is `map canonicalizeValue`. -/
theorem canonList_eq_map (l : List Value) : canonList l = l.map canonicalizeValue := by
  induction l with
  | nil => rfl
  | cons v rest ih => simp [canonList, ih]

/-- Canonicalization preserves the field keys. -/
theorem canonEntries_keys (l : List (String × Value)) :
    (canonEntries l).map Prod.fst = l.map Prod.fst := by
  rw [canonEntries_eq_map, List.map_map]; rfl

/-! ## Idempotence of canonicalization -/

/-- Both-ends whitespace trimming on character lists is idempotent. -/
theorem trimChain_idem (l : List Char) :
    ((((((l.dropWhile Char.isWhitespace).reverse.dropWhile
          Char.isWhitespace).reverse).dropWhile Char.isWhitespace).reverse.dropWhile
            Char.isWhitespace)).reverse =
      ((l.dropWhile Char.isWhitespace).reverse.dropWhile Char.isWhitespace).reverse := by
  show List.rdropWhile Char.isWhitespace
      (List.dropWhile Char.isWhitespace
        (List.rdropWhile Char.isWhitespace (List.dropWhile Char.isWhitespace l))) =
    List.rdropWhile Char.isWhitespace (List.dropWhile Char.isWhitespace l)
  have key : ∀ a : List Char, a.dropWhile Char.isWhitespace = a →
      List.rdropWhile Char.isWhitespace
          (List.dropWhile Char.isWhitespace (List.rdropWhile Char.isWhitespace a)) =
        List.rdropWhile Char.isWhitespace a := by
    intro a hhead
    have hfix : (List.rdropWhile Char.isWhitespace a).dropWhile Char.isWhitespace =
        List.rdropWhile Char.isWhitespace a := by
      rcases hm : List.rdropWhile Char.isWhitespace a with _ | ⟨x, t⟩
      · rfl
      · rcases List.rdropWhile_prefix Char.isWhitespace a with ⟨u, hu⟩
        rw [hm] at hu
        have ht2 : a = x :: (t ++ u) := by rw [← hu]; rfl
        have hx : Char.isWhitespace x = false := by
          by_contra hpx
          simp only [Bool.not_eq_false] at hpx
          rw [ht2, List.dropWhile_cons_of_pos hpx] at hhead
          have hlen := congrArg List.length hhead
          have hle := ((t ++ u).dropWhile_sublist Char.isWhitespace).length_le
          simp only [List.length_cons] at hlen
          omega
        rw [List.dropWhile_cons_of_neg (by simp [hx])]
    rw [hfix, List.rdropWhile_idempotent]
  exact key _ (List.dropWhile_idempotent _ _)

/-- `strings.TrimSpace` is idempotent. -/
theorem goTrimSpace_idem (s : String) : goTrimSpace (goTrimSpace s) = goTrimSpace s :=
  congrArg String.mk (trimChain_idem s.data)

mutual
/-- Canonicalizing a canonical value is a no-op. -/
theorem canonicalizeValue_idem : ∀ v : Value,
    canonicalizeValue (canonicalizeValue v) = canonicalizeValue v
  | .str s => by simp [canonicalizeValue, goTrimSpace_idem]
  | .int _ => rfl
  | .float _ => rfl
  | .bool _ => rfl
  | .null => rfl
  | .unsupported _ => rfl
  | .obj fields => by
      show Value.obj (List.insertionSort keyLe
          (canonEntries (List.insertionSort keyLe (canonEntries fields)))) = _
      have hmap : canonEntries (List.insertionSort keyLe (canonEntries fields)) =
          List.insertionSort keyLe (canonEntries fields) := by
        rw [canonEntries_eq_map,
          List.map_insertionSort keyLe keyLe (fun kv => (kv.1, canonicalizeValue kv.2))
            (canonEntries fields) (fun a _ b _ => Iff.rfl),
          ← canonEntries_eq_map, canonEntries_idem fields]
      rw [hmap,
        List.Sorted.insertionSort_eq (List.sorted_insertionSort keyLe (canonEntries fields))]
      rfl
  | .arr elems => by
      rcases hc : isComparableArray (canonList elems) with _ | _
      · have h1 : canonicalizeValue (.arr elems) = .arr (canonList elems) := by
          simp [canonicalizeValue, hc]
        rw [h1]
        have h2 : canonList (canonList elems) = canonList elems := canonList_idem elems
        simp [canonicalizeValue, h2, hc]
      · have h1 : canonicalizeValue (.arr elems) =
            .arr (List.insertionSort projLe (canonList elems)) := by
          simp [canonicalizeValue, hc]
        rw [h1]
        have hfixelems : ∀ x ∈ List.insertionSort projLe (canonList elems),
            canonicalizeValue x = x := by
          intro x hx
          have hx2 : x ∈ canonList elems := (List.mem_insertionSort projLe).1 hx
          have : (canonList elems).map canonicalizeValue = canonList elems := by
            rw [← canonList_eq_map, canonList_idem elems]
          exact map_eq_self_forall this x hx2
        have h2 : canonList (List.insertionSort projLe (canonList elems)) =
            List.insertionSort projLe (canonList elems) := by
          rw [canonList_eq_map]
          exact List.map_congr_left hfixelems |>.trans (List.map_id _)
        have h3 : isComparableArray (List.insertionSort projLe (canonList elems)) = true := by
          rw [isComparableArray, perm_all_eq (List.perm_insertionSort projLe (canonList elems))]
          exact hc
        simp only [canonicalizeValue, h2, h3, if_true]
        rw [List.Sorted.insertionSort_eq
          (List.sorted_insertionSort projLe (canonList elems))]

/-- `canonEntries` is idempotent. -/
theorem canonEntries_idem : ∀ l : List (String × Value),
    canonEntries (canonEntries l) = canonEntries l
  | [] => rfl
  | (k, v) :: rest => by
      simp [canonEntries, canonicalizeValue_idem v, canonEntries_idem rest]

/-- `canonList` is idempotent. -/
theorem canonList_idem : ∀ l : List Value, canonList (canonList l) = canonList l
  | [] => rfl
  | v :: rest => by
      simp [canonList, canonicalizeValue_idem v, canonList_idem rest]
end

/-! ## "Canonically identical" records

The relation the dedup claim quantifies over: values differing only in
mapping key order, in the order of elements of an all-scalar list (with
pairwise-distinct canonical projections — the condition the code's
projection sort actually needs), or in leading/trailing whitespace of
string values. -/

mutual
/-- Values that canonicalize identically, by construction. -/
inductive CanonEq : Value → Value → Prop where
  | refl (v : Value) : CanonEq v v
  | str (s t : String) : goTrimSpace s = goTrimSpace t → CanonEq (.str s) (.str t)
  | obj (l₁ l' l₂ : List (String × Value)) :
      CanonEqFields l₁ l' → l'.Perm l₂ → (l₁.map Prod.fst).Nodup →
      CanonEq (.obj l₁) (.obj l₂)
  | arrPerm (l₁ l' l₂ : List Value) :
      CanonEqElems l₁ l' → l'.Perm l₂ →
      isComparableArray (canonList l₁) = true →
      ((canonList l₁).map fmtValue).Nodup →
      CanonEq (.arr l₁) (.arr l₂)
  | arrElems (l₁ l₂ : List Value) : CanonEqElems l₁ l₂ → CanonEq (.arr l₁) (.arr l₂)

/-- Pointwise equivalence of map fields: same keys in the same order,
equivalent values. -/
inductive CanonEqFields : List (String × Value) → List (String × Value) → Prop where
  | nil : CanonEqFields [] []
  | cons (k : String) (v w : Value) (t₁ t₂ : List (String × Value)) :
      CanonEq v w → CanonEqFields t₁ t₂ →
      CanonEqFields ((k, v) :: t₁) ((k, w) :: t₂)

/-- Pointwise equivalence of array elements. -/
inductive CanonEqElems : List Value → List Value → Prop where
  | nil : CanonEqElems [] []
  | cons (v w : Value) (t₁ t₂ : List Value) :
      CanonEq v w → CanonEqElems t₁ t₂ → CanonEqElems (v :: t₁) (w :: t₂)
end

/-- `isComparableArray` only looks at membership, so it is permutation
invariant. -/
theorem isComparableArray_perm {l₁ l₂ : List Value} (hp : l₁.Perm l₂) :
    isComparableArray l₁ = isComparableArray l₂ :=
  perm_all_eq hp

mutual
/-- Canonically-identical values canonicalize to the same value. -/
theorem canonEq_sound : ∀ {v w : Value}, CanonEq v w →
    canonicalizeValue v = canonicalizeValue w
  | _, _, .refl _ => rfl
  | _, _, .str s t hst => by simp only [canonicalizeValue, hst]
  | _, _, .obj l₁ l' l₂ hf hp hn => by
      have h1 : canonEntries l₁ = canonEntries l' := canonEqFields_sound hf
      have hperm : (canonEntries l₁).Perm (canonEntries l₂) := by
        rw [h1, canonEntries_eq_map, canonEntries_eq_map]
        exact hp.map _
      have hn2 : ((canonEntries l₁).map Prod.fst).Nodup := by
        rw [canonEntries_keys]; exact hn
      simp only [canonicalizeValue]
      exact congrArg Value.obj (insertionSort_keyLe_eq_of_perm hperm hn2)
  | _, _, .arrPerm l₁ l' l₂ he hp hcomp hnodup => by
      have h1 : canonList l₁ = canonList l' := canonEqElems_sound he
      have hperm : (canonList l₁).Perm (canonList l₂) := by
        rw [h1, canonList_eq_map, canonList_eq_map]
        exact hp.map _
      have hcomp₂ : isComparableArray (canonList l₂) = true := by
        rw [← isComparableArray_perm hperm]; exact hcomp
      simp only [canonicalizeValue, hcomp, hcomp₂, if_true]
      exact congrArg Value.arr (insertionSort_projLe_eq_of_perm hperm hnodup)
  | _, _, .arrElems l₁ l₂ he => by
      simp only [canonicalizeValue, canonEqElems_sound he]

/-- Pointwise-equivalent fields canonicalize pointwise identically. -/
theorem canonEqFields_sound : ∀ {l₁ l₂ : List (String × Value)},
    CanonEqFields l₁ l₂ → canonEntries l₁ = canonEntries l₂
  | _, _, .nil => rfl
  | _, _, .cons k v w t₁ t₂ hv ht => by
      simp only [canonEntries, canonEq_sound hv, canonEqFields_sound ht]

/-- Pointwise-equivalent elements canonicalize pointwise identically. -/
theorem canonEqElems_sound : ∀ {l₁ l₂ : List Value},
    CanonEqElems l₁ l₂ → canonList l₁ = canonList l₂
  | _, _, .nil => rfl
  | _, _, .cons v w t₁ t₂ hv ht => by
      simp only [canonList, canonEq_sound hv, canonEqElems_sound ht]
end

/-- `canonicalizeValue` on a map value is `canonicalize` of the record. -/
theorem canonicalizeValue_obj (l : List (String × Value)) :
    canonicalizeValue (.obj l) = .obj (canonicalize l) := by
  simp only [canonicalizeValue, canonicalize]

/-- Canonically-identical records digest identically. -/
theorem canonicalHash_eq_of_canonEq {r₁ r₂ : Record}
    (h : CanonEq (.obj r₁) (.obj r₂)) : canonicalHash r₁ = canonicalHash r₂ := by
  have h2 : canonicalize r₁ = canonicalize r₂ := by
    have h3 := canonEq_sound h
    rw [canonicalizeValue_obj, canonicalizeValue_obj] at h3
    exact Value.obj.inj h3
  rw [canonicalHash, canonicalHash, h2]

/-- Feeding the deduplicator two records with equal digests marks the
second as a duplicate, whatever was seen before. -/
theorem isUnique_second_false (d : Deduplicator) {r₁ r₂ : Record}
    (hhash : canonicalHash r₁ = canonicalHash r₂) :
    ((d.IsUnique r₁).2.IsUnique r₂).1 = false := by
  by_cases hc : canonicalHash r₁ ∈ d.seen
  · simp [Deduplicator.IsUnique, ← hhash, hc]
  · simp [Deduplicator.IsUnique, ← hhash, hc]

/-! ## Concrete fixtures for claim evaluations -/

/-- Fallback environment with fixed clock/format outputs (no claim depends
on these values). -/
def fixedEnv : FallbackEnv :=
  { dateStr := fun _ => "2025-01-01"
    datetimeStr := fun _ => "2025-01-01T00:00:00Z"
    floatRange := fun _ _ _ => "0.5"
    floatDefault := fun _ => "0.5" }

/-- A specification with the given model batch size and no fields. -/
def batchSpec (b : Int) : Specification := { BatchSize := b }

/-- A backend whose every call fails with a timeout-classified error. -/
def alwaysTimeoutBackend : Backend := fun _ _ => .error "request timeout"

/-- `n` records `[(\"a\", i)]`, `i < n`. -/
def intRecords (n : Nat) : List Record :=
  (List.range n).map fun i => [("a", Value.int i)]

/-! ## Claim C10 -/

/-- Claim C10: a `GenerateWithRetry` call with a requested count of zero or
less never runs the retry loop, issues no backend request, and returns the
`failed to generate any records` error. -/
theorem generateWithRetry_nonpositive_count (config : RetryConfig) (env : FallbackEnv)
    (spec : Specification) (backend : Backend) (count : Int) (callIdx : Nat)
    (h : count ≤ 0) :
    GenerateWithRetry config env spec backend count callIdx =
      { result := .error ("failed to generate any records after " ++
          toString config.MaxRetries ++ " attempts")
        calls := []
        nextCall := callIdx } := by
  unfold GenerateWithRetry
  rw [generateWithRetryLoop.eq_def]
  rw [dif_neg (fun hcon => absurd hcon.1 (by omega))]
  rfl

/-- Witness for C10 at a concrete zero-count call. -/
theorem generateWithRetry_nonpositive_count_witness :
    GenerateWithRetry DefaultRetryConfig fixedEnv (batchSpec 4) alwaysTimeoutBackend 0 7 =
      { result := .error "failed to generate any records after 3 attempts"
        calls := []
        nextCall := 7 } :=
  generateWithRetry_nonpositive_count DefaultRetryConfig fixedEnv (batchSpec 4)
    alwaysTimeoutBackend 0 7 (by decide)

/-! ## Claim C2 -/

/-- Claim C2 (code bug evidence): `determineStrategy` never selects
`StrategyFallback`, so the fallback synthesis is dead code; consequently a
backend that always times out drives `GenerateWithRetry` to the
`failed to generate any records` error with no synthesized records, instead
of the spec's `FallingBack` progress guarantee.  The concrete run uses the
default config (3 retries), batch size 4, count 5: two shrinks and
exhaustion. -/
theorem determineStrategy_never_fallback :
    (∀ (config : RetryConfig) (err : String) (attempt : Nat) (b : Int),
        determineStrategy config err attempt b ≠ .StrategyFallback) ∧
    (GenerateWithRetry DefaultRetryConfig fixedEnv (batchSpec 4) alwaysTimeoutBackend 5 0).result
        = .error "failed to generate any records after 3 attempts" ∧
    (GenerateWithRetry DefaultRetryConfig fixedEnv (batchSpec 4)
        alwaysTimeoutBackend 5 0).calls.map BatchReq.count = [4, 4, 2] := by
  refine ⟨?_, ?_⟩
  · intro config err attempt b
    unfold determineStrategy
    repeat' split
    all_goals simp
  · have s1 : generateWithRetryLoop DefaultRetryConfig fixedEnv (batchSpec 4)
          alwaysTimeoutBackend [] 5 4 0 30000000000 0 [] =
        generateWithRetryLoop DefaultRetryConfig fixedEnv (batchSpec 4)
          alwaysTimeoutBackend [] 5 4 1 60000000000 1 [⟨false, 4, 30000000000, false⟩] := by
      conv_lhs => rw [generateWithRetryLoop.eq_def]
      rfl
    have s2 : generateWithRetryLoop DefaultRetryConfig fixedEnv (batchSpec 4)
          alwaysTimeoutBackend [] 5 4 1 60000000000 1 [⟨false, 4, 30000000000, false⟩] =
        generateWithRetryLoop DefaultRetryConfig fixedEnv (batchSpec 4)
          alwaysTimeoutBackend [] 5 2 2 30000000000 2
          [⟨false, 4, 30000000000, false⟩, ⟨false, 4, 60000000000, false⟩] := by
      conv_lhs => rw [generateWithRetryLoop.eq_def]
      rfl
    have s3 : generateWithRetryLoop DefaultRetryConfig fixedEnv (batchSpec 4)
          alwaysTimeoutBackend [] 5 2 2 30000000000 2
          [⟨false, 4, 30000000000, false⟩, ⟨false, 4, 60000000000, false⟩] =
        generateWithRetryLoop DefaultRetryConfig fixedEnv (batchSpec 4)
          alwaysTimeoutBackend [] 5 1 3 30000000000 3
          [⟨false, 4, 30000000000, false⟩, ⟨false, 4, 60000000000, false⟩,
            ⟨false, 2, 30000000000, false⟩] := by
      conv_lhs => rw [generateWithRetryLoop.eq_def]
      rfl
    have s4 : generateWithRetryLoop DefaultRetryConfig fixedEnv (batchSpec 4)
          alwaysTimeoutBackend [] 5 1 3 30000000000 3
          [⟨false, 4, 30000000000, false⟩, ⟨false, 4, 60000000000, false⟩,
            ⟨false, 2, 30000000000, false⟩] =
        ([], [⟨false, 4, 30000000000, false⟩, ⟨false, 4, 60000000000, false⟩,
            ⟨false, 2, 30000000000, false⟩], 3) := by
      conv_lhs => rw [generateWithRetryLoop.eq_def]
      rfl
    have hfull := ((s1.trans s2).trans s3).trans s4
    unfold GenerateWithRetry
    rw [show ((batchSpec 4).BatchSize : Int) = 4 from rfl,
      show DefaultRetryConfig.BaseTimeout = 30000000000 from rfl]
    rw [hfull]
    exact ⟨rfl, rfl⟩

/-! ## Claim C3 -/

/-- Retry config with a minimum batch size of 10 (the `--min-batch-size`
flag), exposing the shrink floor. -/
def c3Config : RetryConfig := { DefaultRetryConfig with MinBatchSize := 10 }

/-- Backend: two timeouts, then a batch of 20 records. -/
def c3Backend : Backend := fun i _ =>
  if i < 2 then .error "request timeout" else .ok (intRecords 20)

/-- Counterexample to C3 as stated: with `minBatchSize = 10`, batch size 12
and two timeouts, the third request asks for `max(1, int(12*0.5)) = 6`
records — below `minBatchSize` — not the claimed floor of 10. -/
theorem shrink_floor_counterexample :
    (GenerateWithRetry c3Config fixedEnv (batchSpec 12) c3Backend 20 0).calls.map
        BatchReq.count = [12, 12, 6] ∧
    ¬ (GenerateWithRetry c3Config fixedEnv (batchSpec 12) c3Backend 20 0).calls.map
        BatchReq.count = [12, 12, 10] := by
  have s1 : generateWithRetryLoop c3Config fixedEnv (batchSpec 12) c3Backend
        [] 20 12 0 30000000000 0 [] =
      generateWithRetryLoop c3Config fixedEnv (batchSpec 12) c3Backend
        [] 20 12 1 60000000000 1 [⟨false, 12, 30000000000, false⟩] := by
    conv_lhs => rw [generateWithRetryLoop.eq_def]
    rfl
  have s2 : generateWithRetryLoop c3Config fixedEnv (batchSpec 12) c3Backend
        [] 20 12 1 60000000000 1 [⟨false, 12, 30000000000, false⟩] =
      generateWithRetryLoop c3Config fixedEnv (batchSpec 12) c3Backend
        [] 20 6 2 30000000000 2
        [⟨false, 12, 30000000000, false⟩, ⟨false, 12, 60000000000, false⟩] := by
    conv_lhs => rw [generateWithRetryLoop.eq_def]
    rfl
  have s3 : generateWithRetryLoop c3Config fixedEnv (batchSpec 12) c3Backend
        [] 20 6 2 30000000000 2
        [⟨false, 12, 30000000000, false⟩, ⟨false, 12, 60000000000, false⟩] =
      generateWithRetryLoop c3Config fixedEnv (batchSpec 12) c3Backend
        (intRecords 20) 0 6 0 30000000000 3
        [⟨false, 12, 30000000000, false⟩, ⟨false, 12, 60000000000, false⟩,
          ⟨false, 6, 30000000000, false⟩] := by
    conv_lhs => rw [generateWithRetryLoop.eq_def]
    rfl
  have s4 : generateWithRetryLoop c3Config fixedEnv (batchSpec 12) c3Backend
        (intRecords 20) 0 6 0 30000000000 3
        [⟨false, 12, 30000000000, false⟩, ⟨false, 12, 60000000000, false⟩,
          ⟨false, 6, 30000000000, false⟩] =
      (intRecords 20,
        [⟨false, 12, 30000000000, false⟩, ⟨false, 12, 60000000000, false⟩,
          ⟨false, 6, 30000000000, false⟩], 3) := by
    conv_lhs => rw [generateWithRetryLoop.eq_def]
    rfl
  have hfull := ((s1.trans s2).trans s3).trans s4
  unfold GenerateWithRetry
  rw [show ((batchSpec 12).BatchSize : Int) = 12 from rfl,
    show c3Config.BaseTimeout = 30000000000 from rfl]
  rw [hfull]
  exact ⟨rfl, by decide⟩

/-- Backend: two timeouts, then exactly the requested number of records on
each call. -/
def twoTimeoutsThenCount : Backend := fun i req =>
  if i < 2 then .error "request timeout" else .ok (intRecords req.count.toNat)

/-- Claim C3 (amended): a `Timeout` on attempt 1 retries with the same
batch size and the timeout multiplied by the backoff factor capped at
`MaxTimeout`; a `Timeout` on a later attempt with the batch size above
`MinBatchSize` shrinks the batch to `max(1, int(b*factor))` — floor 1, not
`minBatchSize` — and resets the timeout to `BaseTimeout`.  A source timing
out exactly twice then succeeding exhibits exactly this escalation. -/
theorem timeout_escalation_order :
    (∀ (config : RetryConfig) (err : String) (b : Int), isTimeoutError err = true →
        determineStrategy config err 1 b = .StrategyRetry) ∧
    (∀ (config : RetryConfig) (err : String) (a : Nat) (b : Int),
        isTimeoutError err = true → 1 < a → config.MinBatchSize < b →
        determineStrategy config err a b = .StrategyReduce) ∧
    (GenerateWithRetry DefaultRetryConfig fixedEnv (batchSpec 5)
        twoTimeoutsThenCount 5 0).calls.map (fun r => (r.count, r.timeoutNs)) =
      [(5, 30000000000), (5, 60000000000), (2, 30000000000),
        (2, 30000000000), (1, 30000000000)] ∧
    (GenerateWithRetry DefaultRetryConfig fixedEnv (batchSpec 5)
        twoTimeoutsThenCount 5 0).result.isOk = true := by
  refine ⟨?_, ?_, ?_⟩
  · intro config err b h
    unfold determineStrategy
    rw [h]
    simp
  · intro config err a b h ha hb
    unfold determineStrategy
    rw [h]
    simp only [if_true]
    rw [if_neg (by omega), if_pos hb]
  · have s1 : generateWithRetryLoop DefaultRetryConfig fixedEnv (batchSpec 5)
          twoTimeoutsThenCount [] 5 5 0 30000000000 0 [] =
        generateWithRetryLoop DefaultRetryConfig fixedEnv (batchSpec 5)
          twoTimeoutsThenCount [] 5 5 1 60000000000 1 [⟨false, 5, 30000000000, false⟩] := by
      conv_lhs => rw [generateWithRetryLoop.eq_def]
      rfl
    have s2 : generateWithRetryLoop DefaultRetryConfig fixedEnv (batchSpec 5)
          twoTimeoutsThenCount [] 5 5 1 60000000000 1 [⟨false, 5, 30000000000, false⟩] =
        generateWithRetryLoop DefaultRetryConfig fixedEnv (batchSpec 5)
          twoTimeoutsThenCount [] 5 2 2 30000000000 2
          [⟨false, 5, 30000000000, false⟩, ⟨false, 5, 60000000000, false⟩] := by
      conv_lhs => rw [generateWithRetryLoop.eq_def]
      rfl
    have s3 : generateWithRetryLoop DefaultRetryConfig fixedEnv (batchSpec 5)
          twoTimeoutsThenCount [] 5 2 2 30000000000 2
          [⟨false, 5, 30000000000, false⟩, ⟨false, 5, 60000000000, false⟩] =
        generateWithRetryLoop DefaultRetryConfig fixedEnv (batchSpec 5)
          twoTimeoutsThenCount (intRecords 2) 3 2 0 30000000000 3
          [⟨false, 5, 30000000000, false⟩, ⟨false, 5, 60000000000, false⟩,
            ⟨false, 2, 30000000000, false⟩] := by
      conv_lhs => rw [generateWithRetryLoop.eq_def]
      rfl
    have s4 : generateWithRetryLoop DefaultRetryConfig fixedEnv (batchSpec 5)
          twoTimeoutsThenCount (intRecords 2) 3 2 0 30000000000 3
          [⟨false, 5, 30000000000, false⟩, ⟨false, 5, 60000000000, false⟩,
            ⟨false, 2, 30000000000, false⟩] =
        generateWithRetryLoop DefaultRetryConfig fixedEnv (batchSpec 5)
          twoTimeoutsThenCount (intRecords 2 ++ intRecords 2) 1 2 0 30000000000 4
          [⟨false, 5, 30000000000, false⟩, ⟨false, 5, 60000000000, false⟩,
            ⟨false, 2, 30000000000, false⟩, ⟨false, 2, 30000000000, false⟩] := by
      conv_lhs => rw [generateWithRetryLoop.eq_def]
      rfl
    have s5 : generateWithRetryLoop DefaultRetryConfig fixedEnv (batchSpec 5)
          twoTimeoutsThenCount (intRecords 2 ++ intRecords 2) 1 2 0 30000000000 4
          [⟨false, 5, 30000000000, false⟩, ⟨false, 5, 60000000000, false⟩,
            ⟨false, 2, 30000000000, false⟩, ⟨false, 2, 30000000000, false⟩] =
        generateWithRetryLoop DefaultRetryConfig fixedEnv (batchSpec 5)
          twoTimeoutsThenCount (intRecords 2 ++ intRecords 2 ++ intRecords 1) 0 2 0
          30000000000 5
          [⟨false, 5, 30000000000, false⟩, ⟨false, 5, 60000000000, false⟩,
            ⟨false, 2, 30000000000, false⟩, ⟨false, 2, 30000000000, false⟩,
            ⟨false, 1, 30000000000, false⟩] := by
      conv_lhs => rw [generateWithRetryLoop.eq_def]
      rfl
    have s6 : generateWithRetryLoop DefaultRetryConfig fixedEnv (batchSpec 5)
          twoTimeoutsThenCount (intRecords 2 ++ intRecords 2 ++ intRecords 1) 0 2 0
          30000000000 5
          [⟨false, 5, 30000000000, false⟩, ⟨false, 5, 60000000000, false⟩,
            ⟨false, 2, 30000000000, false⟩, ⟨false, 2, 30000000000, false⟩,
            ⟨false, 1, 30000000000, false⟩] =
        (intRecords 2 ++ intRecords 2 ++ intRecords 1,
          [⟨false, 5, 30000000000, false⟩, ⟨false, 5, 60000000000, false⟩,
            ⟨false, 2, 30000000000, false⟩, ⟨false, 2, 30000000000, false⟩,
            ⟨false, 1, 30000000000, false⟩], 5) := by
      conv_lhs => rw [generateWithRetryLoop.eq_def]
      rfl
    have hfull := ((((s1.trans s2).trans s3).trans s4).trans s5).trans s6
    unfold GenerateWithRetry
    rw [show ((batchSpec 5).BatchSize : Int) = 5 from rfl,
      show DefaultRetryConfig.BaseTimeout = 30000000000 from rfl]
    rw [hfull]
    exact ⟨rfl, rfl⟩

/-- Witness for C3's amended strategy facts at concrete inputs. -/
theorem timeout_escalation_order_witness :
    determineStrategy DefaultRetryConfig "request timeout" 1 7 = .StrategyRetry ∧
    determineStrategy c3Config "request timeout" 2 12 = .StrategyReduce :=
  ⟨timeout_escalation_order.1 DefaultRetryConfig "request timeout" 7 rfl,
    timeout_escalation_order.2.1 c3Config "request timeout" 2 12 rfl (by decide) (by decide)⟩

/-! ## Claim C6 -/

/-- The parse-failure error text `GenerateBasic` produces. -/
def parseErrMsg : String :=
  "failed to parse response: could not parse any valid JSON records from LLM response"

/-- Backend: a parse failure first, then the requested records. -/
def parseThenOkBackend : Backend := fun i req =>
  if i = 0 then .error parseErrMsg else .ok (intRecords req.count.toNat)

/-- Helper: the full evaluation of the parse-then-ok run (one Malformed
failure, then success). -/
theorem parseThenOk_run_eval :
    GenerateWithRetry DefaultRetryConfig fixedEnv (batchSpec 3) parseThenOkBackend 3 0 =
      { result := .ok (intRecords 3)
        calls := [⟨false, 3, 30000000000, false⟩, ⟨false, 3, 60000000000, false⟩]
        nextCall := 2 } := by
  have s1 : generateWithRetryLoop DefaultRetryConfig fixedEnv (batchSpec 3)
        parseThenOkBackend [] 3 3 0 30000000000 0 [] =
      generateWithRetryLoop DefaultRetryConfig fixedEnv (batchSpec 3)
        parseThenOkBackend [] 3 3 1 60000000000 1 [⟨false, 3, 30000000000, false⟩] := by
    conv_lhs => rw [generateWithRetryLoop.eq_def]
    rfl
  have s2 : generateWithRetryLoop DefaultRetryConfig fixedEnv (batchSpec 3)
        parseThenOkBackend [] 3 3 1 60000000000 1 [⟨false, 3, 30000000000, false⟩] =
      generateWithRetryLoop DefaultRetryConfig fixedEnv (batchSpec 3)
        parseThenOkBackend (intRecords 3) 0 3 0 30000000000 2
        [⟨false, 3, 30000000000, false⟩, ⟨false, 3, 60000000000, false⟩] := by
    conv_lhs => rw [generateWithRetryLoop.eq_def]
    rfl
  have s3 : generateWithRetryLoop DefaultRetryConfig fixedEnv (batchSpec 3)
        parseThenOkBackend (intRecords 3) 0 3 0 30000000000 2
        [⟨false, 3, 30000000000, false⟩, ⟨false, 3, 60000000000, false⟩] =
      (intRecords 3,
        [⟨false, 3, 30000000000, false⟩, ⟨false, 3, 60000000000, false⟩], 2) := by
    conv_lhs => rw [generateWithRetryLoop.eq_def]
    rfl
  have hfull := (s1.trans s2).trans s3
  unfold GenerateWithRetry
  rw [show ((batchSpec 3).BatchSize : Int) = 3 from rfl,
    show DefaultRetryConfig.BaseTimeout = 30000000000 from rfl]
  rw [hfull]
  rfl

/-- Counterexample to C6 as stated: after a Malformed failure on attempt 1
the engine retries with the same batch size but an increased (doubled)
timeout — the timeout is not unchanged. -/
theorem malformed_retry_counterexample :
    (GenerateWithRetry DefaultRetryConfig fixedEnv (batchSpec 3)
        parseThenOkBackend 3 0).calls.map (fun r => (r.count, r.timeoutNs)) =
      [(3, 30000000000), (3, 60000000000)] ∧
    ¬ (GenerateWithRetry DefaultRetryConfig fixedEnv (batchSpec 3)
        parseThenOkBackend 3 0).calls.map (fun r => (r.count, r.timeoutNs)) =
      [(3, 30000000000), (3, 30000000000)] := by
  rw [parseThenOk_run_eval]
  exact ⟨rfl, by decide⟩

/-- Claim C6 (amended): a Malformed (parsing) failure on attempt `a ≤ 2`
selects `StrategyRetry`, which keeps the batch size unchanged but
multiplies the timeout by the backoff factor (capped at `MaxTimeout`)
rather than leaving it unchanged; a parse failure on attempt 1 with the
default config doubles the timeout from 30s to 60s while re-requesting the
same batch size. -/
theorem malformed_retry_escalates_timeout :
    (∀ (config : RetryConfig) (err : String) (a : Nat) (b : Int),
        isTimeoutError err = false → isParsingError err = true → a ≤ 2 →
        determineStrategy config err a b = .StrategyRetry) ∧
    (GenerateWithRetry DefaultRetryConfig fixedEnv (batchSpec 3)
        parseThenOkBackend 3 0).calls.map (fun r => (r.count, r.timeoutNs)) =
      [(3, 30000000000), (3, 60000000000)] ∧
    (GenerateWithRetry DefaultRetryConfig fixedEnv (batchSpec 3)
        parseThenOkBackend 3 0).result.isOk = true := by
  refine ⟨?_, ?_, ?_⟩
  · intro config err a b h1 h2 h3
    unfold determineStrategy
    rw [h1, h2]
    simp [h3]
  · rw [parseThenOk_run_eval]
    rfl
  · rw [parseThenOk_run_eval]
    rfl

/-- Witness for C6's amended strategy fact at a concrete parse error. -/
theorem malformed_retry_escalates_timeout_witness :
    determineStrategy DefaultRetryConfig parseErrMsg 1 3 = .StrategyRetry :=
  malformed_retry_escalates_timeout.1 DefaultRetryConfig parseErrMsg 1 3 rfl rfl
    (by decide)

/-! ## Claim C4 -/

/-- Record with a mixed-type scalar list whose elements share the string
projection `"1"`. -/
def tieR1 : Record := [("a", .arr [.str "1", .int 1])]

/-- The same record with the list elements reordered. -/
def tieR2 : Record := [("a", .arr [.int 1, .str "1"])]

/-- Counterexample to C4 as stated: two records differing only in the
order of an all-scalar list are not always marked as duplicates — when the
string `"1"` and the integer `1` share the projection `"1"`, the
projection sort leaves both orders in place, the digests differ, and the
second record is admitted. -/
theorem dedup_scalar_list_counterexample :
    (NewDeduplicator.IsUnique tieR1).1 = true ∧
    ((NewDeduplicator.IsUnique tieR1).2.IsUnique tieR2).1 = true ∧
    canonicalHash tieR1 ≠ canonicalHash tieR2 :=
  ⟨rfl, rfl, by decide⟩

/-- Claim C4 (amended): canonicalization is idempotent, and for every pair
of canonically identical records — differing only in mapping key order, in
leading/trailing whitespace of string values, or in the order of an
all-scalar list whose canonical string projections are pairwise distinct
(the projection sort cannot separate colliding projections) — the digests
coincide and the deduplicator marks the second record as a duplicate,
whatever it has already seen. -/
theorem dedup_canonical_equivalence :
    (∀ v : Value, canonicalizeValue (canonicalizeValue v) = canonicalizeValue v) ∧
    (∀ (d : Deduplicator) (r₁ r₂ : Record), CanonEq (.obj r₁) (.obj r₂) →
        canonicalHash r₁ = canonicalHash r₂ ∧
        ((d.IsUnique r₁).2.IsUnique r₂).1 = false) := by
  refine ⟨canonicalizeValue_idem, fun d r₁ r₂ h => ?_⟩
  have hh := canonicalHash_eq_of_canonEq h
  exact ⟨hh, isUnique_second_false d hh⟩

/-- Witness for C4: key reorder plus edge whitespace on a concrete pair. -/
theorem dedup_canonical_equivalence_witness :
    canonicalHash [("a", .int 1), ("b", .str " x ")] =
        canonicalHash [("b", .str "x"), ("a", .int 1)] ∧
    ((NewDeduplicator.IsUnique [("a", .int 1), ("b", .str " x ")]).2.IsUnique
        [("b", .str "x"), ("a", .int 1)]).1 = false :=
  dedup_canonical_equivalence.2 NewDeduplicator
    [("a", .int 1), ("b", .str " x ")] [("b", .str "x"), ("a", .int 1)]
    (CanonEq.obj [("a", .int 1), ("b", .str " x ")] [("a", .int 1), ("b", .str "x")]
      [("b", .str "x"), ("a", .int 1)]
      (CanonEqFields.cons "a" (Value.int 1) (Value.int 1)
        [("b", Value.str " x ")] [("b", Value.str "x")]
        (CanonEq.refl (Value.int 1))
        (CanonEqFields.cons "b" (Value.str " x ") (Value.str "x") [] []
          (CanonEq.str " x " "x" rfl) CanonEqFields.nil))
      (List.Perm.swap ("b", Value.str "x") ("a", Value.int 1) [])
      (by decide))

/-! ## Claim C7 -/

/-- A record containing a value `encoding/json` cannot marshal (the tag
stands for the address `fmt` prints for such a value). -/
def opaqueRec : Record := [("a", .unsupported "0x4bf2a0"), ("b", .int 1)]

/-- Counterexample to C7 as stated: when the digest computation fails, the
record is not dropped and the drop is not counted — it is admitted under
the `fmt` fallback key. -/
theorem dedup_unserializable_counterexample :
    jsonMarshal (.obj (canonicalize opaqueRec)) = none ∧
    (NewDeduplicator.IsUnique opaqueRec).1 = true ∧
    (NewDeduplicator.IsUnique opaqueRec).2.duplicateCount = 0 ∧
    (NewDeduplicator.IsUnique opaqueRec).2.seen =
      [fmtValue (.obj (canonicalize opaqueRec))] :=
  ⟨rfl, rfl, rfl, rfl⟩

/-- Claim C7 (amended): a digest-computation failure is never propagated —
`IsUnique` is total — but the record is not dropped either: the
deduplicator falls back to the `fmt` string representation of the
canonical form as the set key and processes the record normally, admitting
it when that key is unseen and counting a duplicate only on recurrence
(in particular, the same non-serializable record fed twice is marked a
duplicate the second time). -/
theorem dedup_unserializable_fallback :
    (∀ (d : Deduplicator) (r : Record), jsonMarshal (.obj (canonicalize r)) = none →
        d.IsUnique r =
          (if d.seen.contains (fmtValue (.obj (canonicalize r))) then
            (false, { d with duplicateCount := d.duplicateCount + 1 })
          else (true, { d with seen := fmtValue (.obj (canonicalize r)) :: d.seen }))) ∧
    (∀ (d : Deduplicator) (r : Record), ((d.IsUnique r).2.IsUnique r).1 = false) := by
  constructor
  · intro d r h
    unfold Deduplicator.IsUnique canonicalHash
    rw [h]
  · intro d r
    exact isUnique_second_false d rfl

/-- Witness for C7 on the concrete non-serializable record. -/
theorem dedup_unserializable_fallback_witness :
    NewDeduplicator.IsUnique opaqueRec =
      (true, { seen := [fmtValue (.obj (canonicalize opaqueRec))], duplicateCount := 0 }) ∧
    ((NewDeduplicator.IsUnique opaqueRec).2.IsUnique opaqueRec).1 = false :=
  ⟨by rw [dedup_unserializable_fallback.1 NewDeduplicator opaqueRec rfl]; rfl,
    dedup_unserializable_fallback.2 NewDeduplicator opaqueRec⟩

/-! ## Claim C8 -/

/-- Constructor shape and closed flag of a write handle (for tracking that
successful writes preserve them). -/
def WriterHandle.shapeClosed : WriterHandle → Nat × Bool
  | .stdoutW _ => (0, false)
  | .fileW f => (1, f.closed)
  | .gzipW _ f => (2, f.closed)

/-- A successful raw-handle write preserves the handle shape and the
closed flag. -/
theorem writerHandle_write_ok_shape {h h' : WriterHandle} {c : String}
    (hw : h.write c = (.ok (), h')) : h'.shapeClosed = h.shapeClosed := by
  cases h with
  | stdoutW out =>
      unfold WriterHandle.write at hw
      cases hw
      rfl
  | fileW f =>
      unfold WriterHandle.write FileSt.write at hw
      dsimp only at hw
      by_cases hc : f.closed
      · rw [if_pos hc] at hw; cases hw
      · rw [if_neg hc] at hw
        cases hw
        simp [WriterHandle.shapeClosed]
  | gzipW gc f =>
      unfold WriterHandle.write FileSt.write at hw
      dsimp only at hw
      by_cases hc : f.closed
      · rw [if_pos hc] at hw; cases hw
      · rw [if_neg hc] at hw
        cases hw
        simp [WriterHandle.shapeClosed]

/-- A successful `JSONLWriter.Write` preserves the handle shape and the
closed flag. -/
theorem jsonlWrite_ok_shape {w w' : JSONLWriter} {r : Record}
    (h : JSONLWriter.Write w r = (.ok (), w')) :
    w'.writer.shapeClosed = w.writer.shapeClosed := by
  unfold JSONLWriter.Write at h
  split at h
  · cases h
  · split at h
    · cases h
    · rename_i line hm p w1 a heq
      cases h
      exact writerHandle_write_ok_shape heq

/-- A successful buffered-write run preserves shape and closed flag. -/
theorem streamWriteList_ok_shape : ∀ (buf : List Record) (w w' : JSONLWriter),
    streamWriteList JSONLWriter.Write w buf = (.ok (), w') →
    w'.writer.shapeClosed = w.writer.shapeClosed
  | [], w, w', h => by
      unfold streamWriteList at h
      cases h
      rfl
  | r :: rs, w, w', h => by
      unfold streamWriteList at h
      rcases hwr : JSONLWriter.Write w r with ⟨res1, w1⟩
      rw [hwr] at h
      cases res1 with
      | error e => cases h
      | ok u =>
          have h2 := streamWriteList_ok_shape rs w1 w' h
          rw [h2]
          exact jsonlWrite_ok_shape hwr

/-- A successful `StreamingWriter.Flush` empties the buffer and preserves
the handle shape and closed flag. -/
theorem streamFlush_ok_shape {s s1 : StreamingWriter JSONLWriter}
    (h : StreamingWriter.Flush JSONLWriter.Write s = (.ok (), s1)) :
    s1.buffer = [] ∧ s1.writer.writer.shapeClosed = s.writer.writer.shapeClosed := by
  unfold StreamingWriter.Flush at h
  by_cases hb : s.buffer.length = 0
  · rw [if_pos hb] at h
    cases h
    exact ⟨List.length_eq_zero.1 hb, rfl⟩
  · rw [if_neg hb] at h
    rcases hw : streamWriteList JSONLWriter.Write s.writer s.buffer with ⟨res1, u1⟩
    rw [hw] at h
    cases res1 with
    | error e => cases h
    | ok u =>
        cases h
        exact ⟨rfl, streamWriteList_ok_shape s.buffer s.writer u1 hw⟩

/-- A fresh file-backed streaming writer as `runGeneration` builds it. -/
def fileStream : StreamingWriter JSONLWriter := NewStreamingWriter "out.jsonl" 100

/-- Counterexample to C8 as stated: on a file-backed sink the first `Close`
succeeds but the second returns the underlying already-closed error —
`Close` is not idempotent. -/
theorem close_not_idempotent_counterexample :
    (StreamingWriter.Close JSONLWriter.Write JSONLWriter.Close fileStream).1 = .ok () ∧
    (StreamingWriter.Close JSONLWriter.Write JSONLWriter.Close
        (StreamingWriter.Close JSONLWriter.Write JSONLWriter.Close fileStream).2).1 =
      .error "file already closed" :=
  ⟨rfl, rfl⟩

/-- Claim C8 (amended): after a successful `Close`, a second `Close` is a
no-op returning nil only when the output is stdout (`JSONLWriter.Close`
skips `os.Stdout`); for a file-backed sink the second `Close` calls the
underlying `os.File.Close` again, which fails with the already-closed
error — flush-and-release still happens at most once. -/
theorem close_idempotent_only_for_stdout :
    (∀ (s s2 : StreamingWriter JSONLWriter) (out : List String),
        s.writer.writer = .stdoutW out →
        StreamingWriter.Close JSONLWriter.Write JSONLWriter.Close s = (.ok (), s2) →
        StreamingWriter.Close JSONLWriter.Write JSONLWriter.Close s2 = (.ok (), s2)) ∧
    (∀ (s s2 : StreamingWriter JSONLWriter) (f : FileSt),
        s.writer.writer = .fileW f →
        StreamingWriter.Close JSONLWriter.Write JSONLWriter.Close s = (.ok (), s2) →
        (StreamingWriter.Close JSONLWriter.Write JSONLWriter.Close s2).1 =
          .error "file already closed") := by
  constructor
  · intro s s2 out hw hc
    unfold StreamingWriter.Close at hc
    split at hc
    · cases hc
    · rename_i u1 s1 heq
      cases u1
      rcases streamFlush_ok_shape heq with ⟨hbuf, hshape⟩
      rw [hw] at hshape
      have hstd : ∃ out2, s1.writer.writer = .stdoutW out2 := by
        cases hcase : s1.writer.writer with
        | stdoutW o2 => exact ⟨o2, rfl⟩
        | fileW f2 =>
            rw [hcase] at hshape
            simp [WriterHandle.shapeClosed] at hshape
        | gzipW gc2 f2 =>
            rw [hcase] at hshape
            simp [WriterHandle.shapeClosed] at hshape
      rcases hstd with ⟨out2, hstd⟩
      have hclose : JSONLWriter.Close s1.writer = (.ok (), s1.writer) := by
        unfold JSONLWriter.Close
        rw [hstd]
      rw [hclose] at hc
      cases hc
      unfold StreamingWriter.Close
      have hflush2 : StreamingWriter.Flush JSONLWriter.Write
          { s1 with writer := s1.writer } = (.ok (), s1) := by
        unfold StreamingWriter.Flush
        rw [if_pos (by simp [hbuf])]
      rw [hflush2]
      simp [hclose]
  · intro s s2 f hw hc
    unfold StreamingWriter.Close at hc
    split at hc
    · cases hc
    · rename_i u1 s1 heq
      cases u1
      rcases streamFlush_ok_shape heq with ⟨hbuf, hshape⟩
      rw [hw] at hshape
      have hfile : ∃ f2 : FileSt, s1.writer.writer = .fileW f2 ∧ f2.closed = f.closed := by
        cases hcase : s1.writer.writer with
        | stdoutW o2 =>
            rw [hcase] at hshape
            simp [WriterHandle.shapeClosed] at hshape
        | fileW f2 =>
            rw [hcase] at hshape
            simp [WriterHandle.shapeClosed] at hshape
            exact ⟨f2, rfl, hshape⟩
        | gzipW gc2 f2 =>
            rw [hcase] at hshape
            simp [WriterHandle.shapeClosed] at hshape
      rcases hfile with ⟨f2, hfile, hsame⟩
      have hcl : JSONLWriter.Close s1.writer =
          ((FileSt.close f2).1, { s1.writer with writer := .fileW (FileSt.close f2).2 }) := by
        unfold JSONLWriter.Close
        rw [hfile]
        simp [WriterHandle.close]
      rw [hcl] at hc
      by_cases hc2 : f2.closed
      · unfold FileSt.close at hc
        rw [if_pos hc2] at hc
        cases hc
      · unfold FileSt.close at hc
        rw [if_neg hc2] at hc
        cases hc
        unfold StreamingWriter.Close
        have hflush2 : StreamingWriter.Flush JSONLWriter.Write
            { s1 with writer :=
              { s1.writer with writer := .fileW { f2 with closed := true } } } =
            (.ok (), { s1 with writer :=
              { s1.writer with writer := .fileW { f2 with closed := true } } }) := by
          unfold StreamingWriter.Flush
          rw [if_pos (by simp [hbuf])]
        rw [hflush2]
        simp only []
        unfold JSONLWriter.Close
        simp [WriterHandle.close, FileSt.close]

/-- Witness for C8 on concrete stdout- and file-backed sinks. -/
theorem close_idempotent_only_for_stdout_witness :
    StreamingWriter.Close JSONLWriter.Write JSONLWriter.Close
        (StreamingWriter.Close JSONLWriter.Write JSONLWriter.Close
          (NewStreamingWriter "stdout" 100)).2 =
      (.ok (), (StreamingWriter.Close JSONLWriter.Write JSONLWriter.Close
          (NewStreamingWriter "stdout" 100)).2) ∧
    (StreamingWriter.Close JSONLWriter.Write JSONLWriter.Close
        (StreamingWriter.Close JSONLWriter.Write JSONLWriter.Close fileStream).2).1 =
      .error "file already closed" :=
  ⟨close_idempotent_only_for_stdout.1 (NewStreamingWriter "stdout" 100) _ [] rfl rfl,
    close_idempotent_only_for_stdout.2 fileStream _ ⟨[], false⟩ rfl rfl⟩

/-! ## Claim C9 -/

/-- Serialization of map entries under permutation: both fail, or both
succeed with permuted rendered entries. -/
theorem jsonEntries_perm : ∀ {l₁ l₂ : List (String × Value)}, l₁.Perm l₂ →
    (jsonEntries l₁ = none ∧ jsonEntries l₂ = none) ∨
    (∃ es₁ es₂, jsonEntries l₁ = some es₁ ∧ jsonEntries l₂ = some es₂ ∧ es₁.Perm es₂) := by
  intro l₁ l₂ hp
  induction hp with
  | nil => exact Or.inr ⟨[], [], rfl, rfl, .nil⟩
  | cons x p ih =>
      obtain ⟨k, v⟩ := x
      rcases hm : jsonMarshal v with _ | s
      · left
        constructor <;> simp [jsonEntries, hm]
      · rcases ih with ⟨h1, h2⟩ | ⟨es₁, es₂, h1, h2, hpe⟩
        · left
          constructor <;> simp [jsonEntries, hm, h1, h2]
        · right
          exact ⟨(k, s) :: es₁, (k, s) :: es₂, by simp [jsonEntries, hm, h1],
            by simp [jsonEntries, hm, h2], hpe.cons _⟩
  | swap x y t =>
      obtain ⟨kx, vx⟩ := x
      obtain ⟨ky, vy⟩ := y
      rcases hmx : jsonMarshal vx with _ | sx <;> rcases hmy : jsonMarshal vy with _ | sy
      · left
        constructor <;> simp [jsonEntries, hmx, hmy]
      · left
        constructor <;> simp [jsonEntries, hmx, hmy]
      · left
        constructor <;> simp [jsonEntries, hmx, hmy]
      · rcases ht : jsonEntries t with _ | es
        · left
          constructor <;> simp [jsonEntries, hmx, hmy, ht]
        · right
          exact ⟨(ky, sy) :: (kx, sx) :: es, (kx, sx) :: (ky, sy) :: es,
            by simp [jsonEntries, hmx, hmy, ht],
            by simp [jsonEntries, hmx, hmy, ht],
            List.Perm.swap (kx, sx) (ky, sy) es⟩
  | trans p₁ p₂ ih₁ ih₂ =>
      rcases ih₁ with ⟨a1, a2⟩ | ⟨es₁, es₂, a1, a2, ap⟩ <;>
        rcases ih₂ with ⟨b1, b2⟩ | ⟨fs₁, fs₂, b1, b2, bp⟩
      · exact Or.inl ⟨a1, b2⟩
      · rw [a2] at b1
        cases b1
      · rw [a2] at b1
        cases b1
      · right
        refine ⟨es₁, fs₂, a1, b2, ?_⟩
        rw [a2] at b1
        cases b1
        exact ap.trans bp

/-- Successful serialization preserves the key sequence. -/
theorem jsonEntries_keys : ∀ {l : List (String × Value)} {es : List (String × String)},
    jsonEntries l = some es → es.map Prod.fst = l.map Prod.fst
  | [], es, h => by
      cases h
      rfl
  | (k, v) :: t, es, h => by
      unfold jsonEntries at h
      split at h
      · cases h
      · split at h
        · cases h
        · rename_i s hm tail htail
          cases h
          simp only [List.map_cons]
          rw [jsonEntries_keys htail]

/-- Records equal as maps serialize to the same line. -/
theorem jsonMarshal_obj_perm {r₁ r₂ : Record} (hn : (r₁.map Prod.fst).Nodup)
    (hp : r₁.Perm r₂) : jsonMarshal (.obj r₁) = jsonMarshal (.obj r₂) := by
  rcases jsonEntries_perm hp with ⟨h1, h2⟩ | ⟨es₁, es₂, h1, h2, hpe⟩
  · simp [jsonMarshal, h1, h2]
  · have hkeys : es₁.map Prod.fst = r₁.map Prod.fst := jsonEntries_keys h1
    have hn1 : (es₁.map Prod.fst).Nodup := by
      rw [hkeys]
      exact hn
    have hsort := insertionSort_pairLe_eq_of_perm hpe hn1
    simp [jsonMarshal, h1, h2, hsort]

/-- Counterexample to C9 as stated: a record produced with fields in the
order `b`, `a` is persisted as one line with the fields in sorted
(canonical) key order `a`, `b` — the "natural" production order is not
preserved (a Go map has no such order, and `encoding/json` sorts keys). -/
theorem output_order_counterexample :
    (JSONLWriter.Write (NewJSONLWriter "out.jsonl")
        [("b", Value.int 2), ("a", Value.int 1)]).2.writer =
      .fileW ⟨["\x7b\"a\":1,\"b\":2\x7d\n"], false⟩ ∧
    jsonMarshal (.obj [("b", Value.int 2), ("a", Value.int 1)]) ≠
      some "\x7b\"b\":2,\"a\":1\x7d" :=
  ⟨rfl, by decide⟩

/-- Claim C9 (amended): each persisted line is one JSON object followed by
a newline, and its field order is the lexicographically sorted key order —
the same order canonicalization uses — independent of the order the
record's fields were produced in (a Go map carries no production order):
writing key-permuted variants of a record yields identical sink effects. -/
theorem output_line_key_order :
    (∀ (w : JSONLWriter) (r₁ r₂ : Record), (r₁.map Prod.fst).Nodup → r₁.Perm r₂ →
        JSONLWriter.Write w r₁ = JSONLWriter.Write w r₂) ∧
    jsonMarshal (.obj [("b", Value.int 2), ("a", Value.int 1)]) =
      some "\x7b\"a\":1,\"b\":2\x7d" := by
  constructor
  · intro w r₁ r₂ hn hp
    unfold JSONLWriter.Write
    rw [jsonMarshal_obj_perm hn hp]
  · rfl

/-- Witness for C9 on a concrete key-permuted pair. -/
theorem output_line_key_order_witness :
    JSONLWriter.Write (NewJSONLWriter "out.jsonl") [("b", Value.int 2), ("a", Value.int 1)] =
      JSONLWriter.Write (NewJSONLWriter "out.jsonl") [("a", Value.int 1), ("b", Value.int 2)] :=
  output_line_key_order.1 (NewJSONLWriter "out.jsonl")
    [("b", Value.int 2), ("a", Value.int 1)] [("a", Value.int 1), ("b", Value.int 2)]
    (by decide) (List.Perm.swap ("a", Value.int 1) ("b", Value.int 2) [])

/-! ## Claim C5 -/

/-- An underlying record writer that counts its physical write calls and
fails exactly on its 5th call with `disk full`, keeping the records the
successful calls persisted. -/
def countFail5 : (Nat × List Record) → Record → Except String Unit × (Nat × List Record) :=
  fun s r =>
    if s.1 + 1 = 5 then (.error "disk full", (s.1 + 1, s.2))
    else (.ok (), (s.1 + 1, s.2 ++ [r]))

/-- Feed records one by one through `StreamingWriter.Write`, collecting the
result of every sink call. -/
def writeSeq {σ : Type} (uw : σ → Record → Except String Unit × σ) :
    StreamingWriter σ → List Record → List (Except String Unit) × StreamingWriter σ
  | s, [] => ([], s)
  | s, r :: rs =>
      match StreamingWriter.Write uw s r with
      | (res, s1) =>
          match writeSeq uw s1 rs with
          | (tail, s2) => (res :: tail, s2)

set_option maxRecDepth 8192 in
/-- Counterexample to C5 as stated: with the buffered sink `runGeneration`
builds (`StreamingWriter`, buffer size 100) over an underlying writer whose
5th physical write fails, the 5th sink `Write` call still succeeds — the
failure is not signaled at the failing `Write` call.  It surfaces only at
the 100th call, when the buffer flushes, with just 4 records persisted. -/
theorem buffered_write_failure_not_immediate :
    (writeSeq countFail5 ⟨(0, []), [], 100⟩ (intRecords 100)).1.take 5 =
      [.ok (), .ok (), .ok (), .ok (), .ok ()] ∧
    (writeSeq countFail5 ⟨(0, []), [], 100⟩ (intRecords 100)).1.drop 99 =
      [.error "disk full"] ∧
    (writeSeq countFail5 ⟨(0, []), [], 100⟩ (intRecords 100)).2.writer.2 = intRecords 4 :=
  ⟨rfl, rfl, rfl⟩

/-- An orchestrator-facing sink whose `write` fails exactly on its `n`-th
call with `disk full`, counting calls in its state; `flush` and `close`
always succeed. -/
def failSink (n : Nat) : SinkOps Nat :=
  { write := fun s _ => if s + 1 = n then (.error "disk full", s + 1) else (.ok (), s + 1)
    flush := fun s => (.ok (), s)
    close := fun s => (.ok (), s) }

/-- The timeout message differs from the write-failure message. -/
theorem timeoutMsg_ne (ts : String) :
    "generation timed out after " ++ ts ≠ "failed to write record: " ++ "disk full" := by
  intro h
  have hg : ("generation timed out after " ++ ts).data.head? = some 'g' := rfl
  rw [h] at hg
  exact absurd hg (by decide)

/-- The batch-failure message differs from the write-failure message. -/
theorem batchMsg_ne (b e : String) :
    "failed to generate batch " ++ b ++ ": " ++ e ≠
      "failed to write record: " ++ "disk full" := by
  intro h
  have hg : (("failed to generate batch " ++ b ++ ": " ++ e).data.drop 10).head? =
      some 'g' := rfl
  rw [h] at hg
  exact absurd hg (by decide)

/-- Through the write loop over the `failSink 5` sink, the generated
counter tracks the successful sink calls: either every write succeeded and
the call counter stays at most 4, or the loop stopped at the 5th call with
exactly 4 successes reported. -/
theorem writeRecords_failSink5 : ∀ (rs : List Record) (st : GenState Nat)
    (res : Except String Unit) (st' : GenState Nat),
    writeRecords (failSink 5) st rs = (res, st') →
    st.generated = st.sink → st.sink ≤ 4 →
    ((res = .ok () ∧ st'.generated = st'.sink ∧ st'.sink ≤ 4) ∨
     (res = .error ("failed to write record: " ++ "disk full") ∧
      st'.generated = 4 ∧ st'.sink = 5))
  | [], st, res, st', h, hgs, hle => by
      have h' : ((Except.ok () : Except String Unit), st) = (res, st') := h
      injection h' with he hst
      subst he
      subst hst
      exact Or.inl ⟨rfl, hgs, hle⟩
  | r :: rs, st, res, st', h, hgs, hle => by
      simp only [writeRecords] at h
      have hw : (failSink 5).write st.sink r =
          (if st.sink + 1 = 5 then ((.error "disk full" : Except String Unit), st.sink + 1)
           else (.ok (), st.sink + 1)) := rfl
      rw [hw] at h
      by_cases h5 : st.sink + 1 = 5
      · rw [if_pos h5] at h
        have h' : ((Except.error ("failed to write record: " ++ "disk full") :
              Except String Unit),
            ({ st with sink := st.sink + 1 } : GenState Nat)) = (res, st') := h
        injection h' with he hst
        subst he
        subst hst
        refine Or.inr ⟨rfl, ?_, ?_⟩
        · show st.generated = 4
          omega
        · show st.sink + 1 = 5
          omega
      · rw [if_neg h5] at h
        have h' : writeRecords (failSink 5)
            { st with sink := st.sink + 1, generated := st.generated + 1 } rs =
            (res, st') := h
        refine writeRecords_failSink5 rs _ res st' h' ?_ ?_
        · show st.generated + 1 = st.sink + 1
          omega
        · show st.sink + 1 ≤ 4
          omega

/-- One unfolding of the generation loop at fuel zero. -/
theorem runGenerationLoop_zero {τ : Type} (config : RetryConfig) (env : FallbackEnv)
    (spec : Specification) (backend : Backend) (ops : SinkOps τ) (target : Int)
    (ts : String) (st : GenState τ) :
    runGenerationLoop config env spec backend ops target ts 0 st =
      (if (st.generated : Int) < target then
        ((.error ("generation timed out after " ++ ts) : Except String Unit), st)
      else
        match ops.flush st.sink with
        | (.error e, sink1) =>
            (.error ("failed to flush output: " ++ e), { st with sink := sink1 })
        | (.ok _, sink1) => (.ok (), { st with sink := sink1 })) := rfl

/-- One unfolding of the generation loop at successor fuel: if still short
of the target, issue one `GenerateWithRetry` batch, then either fail the
run, or deduplicate, write the survivors and recurse. -/
theorem runGenerationLoop_succ {τ : Type} (config : RetryConfig) (env : FallbackEnv)
    (spec : Specification) (backend : Backend) (ops : SinkOps τ) (target : Int)
    (ts : String) (n : Nat) (st : GenState τ) :
    runGenerationLoop config env spec backend ops target ts (n + 1) st =
      (if (st.generated : Int) < target then
        match (GenerateWithRetry config env spec backend
              (if target - (st.generated : Int) < spec.BatchSize
               then target - (st.generated : Int) else spec.BatchSize)
              st.nextCall).result with
        | .error e =>
            ((.error ("failed to generate batch " ++ toString (st.batchCount + 1) ++
                 ": " ++ e) : Except String Unit),
              { st with
                  batchCount := st.batchCount + 1
                  nextCall := (GenerateWithRetry config env spec backend
                      (if target - (st.generated : Int) < spec.BatchSize
                       then target - (st.generated : Int) else spec.BatchSize)
                      st.nextCall).nextCall })
        | .ok records =>
            match writeRecords ops
                { st with
                    batchCount := st.batchCount + 1
                    nextCall := (GenerateWithRetry config env spec backend
                        (if target - (st.generated : Int) < spec.BatchSize
                         then target - (st.generated : Int) else spec.BatchSize)
                        st.nextCall).nextCall
                    dedup := (st.dedup.FilterUnique records).2 }
                (st.dedup.FilterUnique records).1 with
            | (.error e, st4) => (.error e, st4)
            | (.ok _, st4) => runGenerationLoop config env spec backend ops target ts n st4
      else
        match ops.flush st.sink with
        | (.error e, sink1) =>
            (.error ("failed to flush output: " ++ e), { st with sink := sink1 })
        | (.ok _, sink1) => (.ok (), { st with sink := sink1 })) := rfl

/-- Invariant of the generation loop over the `failSink 5` sink: either the
run never saw the failing write (generated tracks the call counter, at most
4, and the result is not the write failure), or it aborted at the 5th sink
call reporting exactly 4 records. -/
theorem runGenLoop_failSink5 (config : RetryConfig) (env : FallbackEnv)
    (spec : Specification) (backend : Backend) (target : Int) (ts : String) :
    ∀ (iters : Nat) (st : GenState Nat) (res : Except String Unit) (st' : GenState Nat),
    runGenerationLoop config env spec backend (failSink 5) target ts iters st = (res, st') →
    st.generated = st.sink → st.sink ≤ 4 →
    ((st'.generated = st'.sink ∧ st'.sink ≤ 4 ∧
      res ≠ .error ("failed to write record: " ++ "disk full")) ∨
     (st'.generated = 4 ∧ st'.sink = 5 ∧
      res = .error ("failed to write record: " ++ "disk full")))
  | 0, st, res, st', h, hgs, hle => by
      rw [runGenerationLoop_zero config env spec backend (failSink 5) target ts st] at h
      by_cases hlt : (st.generated : Int) < target
      · rw [if_pos hlt] at h
        injection h with he hst
        subst he
        subst hst
        refine Or.inl ⟨hgs, hle, fun hcon => ?_⟩
        injection hcon with hmsg
        exact timeoutMsg_ne ts hmsg
      · rw [if_neg hlt] at h
        have h' : ((Except.ok () : Except String Unit),
            ({ st with sink := st.sink } : GenState Nat)) = (res, st') := h
        injection h' with he hst
        subst he
        subst hst
        exact Or.inl ⟨hgs, hle, fun hcon => Except.noConfusion hcon⟩
  | n + 1, st, res, st', h, hgs, hle => by
      rw [runGenerationLoop_succ config env spec backend (failSink 5) target ts n st] at h
      by_cases hlt : (st.generated : Int) < target
      · rw [if_pos hlt] at h
        split at h
        · rename_i e heqg
          injection h with he hst
          subst he
          subst hst
          refine Or.inl ⟨hgs, hle, fun hcon => ?_⟩
          injection hcon with hmsg
          exact batchMsg_ne (toString (st.batchCount + 1)) e hmsg
        · rename_i records heqg
          split at h
          · rename_i e st4 heqw
            injection h with he hst
            subst he
            subst hst
            have hwr := writeRecords_failSink5 _ _ _ _ heqw hgs hle
            rcases hwr with ⟨hok, -, -⟩ | ⟨hmsg, hg4, hs5⟩
            · exact Except.noConfusion hok
            · exact Or.inr ⟨hg4, hs5, hmsg⟩
          · rename_i u st4 heqw
            have hwr := writeRecords_failSink5 _ _ _ _ heqw hgs hle
            rcases hwr with ⟨-, hg, hl⟩ | ⟨hmsg, -, -⟩
            · exact runGenLoop_failSink5 config env spec backend target ts n st4 res st' h hg hl
            · exact Except.noConfusion hmsg
      · rw [if_neg hlt] at h
        have h' : ((Except.ok () : Except String Unit),
            ({ st with sink := st.sink } : GenState Nat)) = (res, st') := h
        injection h' with he hst
        subst he
        subst hst
        exact Or.inl ⟨hgs, hle, fun hcon => Except.noConfusion hcon⟩

/-- Claim C5 (amended): against a sink whose `Write` fails on its 5th call,
the run never reports more than 4 records; and whenever the run ends with
the write-failure error, the reported generated count is exactly 4 (not 5
and not 0) — a failing sink write is fatal at the interface the write loop
sees.  (As stated the claim is falsified by the pipeline's buffered sink:
see the counterexample, where the failure is signaled only at the flush.) -/
theorem sink_write_failure_aborts (config : RetryConfig) (env : FallbackEnv)
    (spec : Specification) (backend : Backend) (target : Int) (ts : String) (iters : Nat) :
    (runGeneration config env spec backend (failSink 5) 0 target ts iters).2.generated ≤ 4 ∧
    ((runGeneration config env spec backend (failSink 5) 0 target ts iters).1 =
        .error ("failed to write record: " ++ "disk full") →
      (runGeneration config env spec backend (failSink 5) 0 target ts iters).2.generated = 4) := by
  have hrun1 : (runGeneration config env spec backend (failSink 5) 0 target ts iters).1 =
      (runGenerationLoop config env spec backend (failSink 5) target ts iters
        ⟨0, 0, NewDeduplicator, 0, 0⟩).1 := rfl
  have hrun2 : (runGeneration config env spec backend (failSink 5) 0 target ts iters).2.generated =
      (runGenerationLoop config env spec backend (failSink 5) target ts iters
        ⟨0, 0, NewDeduplicator, 0, 0⟩).2.generated := rfl
  have hinv := runGenLoop_failSink5 config env spec backend target ts iters
    ⟨0, 0, NewDeduplicator, 0, 0⟩
    (runGenerationLoop config env spec backend (failSink 5) target ts iters
      ⟨0, 0, NewDeduplicator, 0, 0⟩).1
    (runGenerationLoop config env spec backend (failSink 5) target ts iters
      ⟨0, 0, NewDeduplicator, 0, 0⟩).2
    rfl rfl (Nat.zero_le 4)
  rcases hinv with ⟨h1, h2, h3⟩ | ⟨h1, h2, h3⟩
  · constructor
    · rw [hrun2]
      omega
    · intro hcon
      rw [hrun1] at hcon
      exact absurd hcon h3
  · constructor
    · rw [hrun2]
      omega
    · intro hcon
      rw [hrun2]
      exact h1

/-- A backend whose every call succeeds with 6 distinct records. -/
def okSixBackend : Backend := fun _ _ => .ok (intRecords 6)

/-- Witness for C5: a concrete run (target 6, one successful batch of 6
unique records, sink failing at its 5th write) ends with the write-failure
error and a generated count of exactly 4. -/
theorem sink_write_failure_aborts_witness :
    (runGeneration DefaultRetryConfig fixedEnv (batchSpec 6) okSixBackend (failSink 5) 0 6
        "2h0m0s" 1).1 = .error ("failed to write record: " ++ "disk full") ∧
    (runGeneration DefaultRetryConfig fixedEnv (batchSpec 6) okSixBackend (failSink 5) 0 6
        "2h0m0s" 1).2.generated = 4 := by
  have hg : GenerateWithRetry DefaultRetryConfig fixedEnv (batchSpec 6) okSixBackend 6 0 =
      ⟨.ok (intRecords 6), [⟨false, 6, 30000000000, false⟩], 1⟩ := by
    have s1 : generateWithRetryLoop DefaultRetryConfig fixedEnv (batchSpec 6) okSixBackend
          [] 6 6 0 30000000000 0 [] =
        generateWithRetryLoop DefaultRetryConfig fixedEnv (batchSpec 6) okSixBackend
          (intRecords 6) 0 6 0 30000000000 1 [⟨false, 6, 30000000000, false⟩] := by
      conv_lhs => rw [generateWithRetryLoop.eq_def]
      rfl
    have s2 : generateWithRetryLoop DefaultRetryConfig fixedEnv (batchSpec 6) okSixBackend
          (intRecords 6) 0 6 0 30000000000 1 [⟨false, 6, 30000000000, false⟩] =
        (intRecords 6, [⟨false, 6, 30000000000, false⟩], 1) := by
      conv_lhs => rw [generateWithRetryLoop.eq_def]
      rfl
    have hfull := s1.trans s2
    unfold GenerateWithRetry
    rw [show ((batchSpec 6).BatchSize : Int) = 6 from rfl,
      show DefaultRetryConfig.BaseTimeout = 30000000000 from rfl]
    rw [hfull]
    rfl
  have hg2 : GenerateWithRetry DefaultRetryConfig fixedEnv (batchSpec 6) okSixBackend
      (if (6 : Int) - ((⟨0, 0, NewDeduplicator, 0, 0⟩ : GenState Nat).generated : Int) <
          (batchSpec 6).BatchSize
       then (6 : Int) - ((⟨0, 0, NewDeduplicator, 0, 0⟩ : GenState Nat).generated : Int)
       else (batchSpec 6).BatchSize)
      (⟨0, 0, NewDeduplicator, 0, 0⟩ : GenState Nat).nextCall =
      ⟨.ok (intRecords 6), [⟨false, 6, 30000000000, false⟩], 1⟩ := hg
  have h1 : (runGeneration DefaultRetryConfig fixedEnv (batchSpec 6) okSixBackend (failSink 5) 0 6
      "2h0m0s" 1).1 = .error ("failed to write record: " ++ "disk full") := by
    show (runGenerationLoop DefaultRetryConfig fixedEnv (batchSpec 6) okSixBackend (failSink 5)
        6 "2h0m0s" (0 + 1) ⟨0, 0, NewDeduplicator, 0, 0⟩).1 =
      .error ("failed to write record: " ++ "disk full")
    rw [runGenerationLoop_succ DefaultRetryConfig fixedEnv (batchSpec 6) okSixBackend
      (failSink 5) 6 "2h0m0s" 0 ⟨0, 0, NewDeduplicator, 0, 0⟩]
    rw [hg2]
    rfl
  exact ⟨h1, (sink_write_failure_aborts DefaultRetryConfig fixedEnv (batchSpec 6) okSixBackend
    6 "2h0m0s" 1).2 h1⟩

/-! ## Claim C1 -/

/-- A backend whose every call succeeds with the same 2 distinct records. -/
def okTwoBackend : Backend := fun _ _ =>
  .ok [[("a", Value.int 1)], [("a", Value.int 2)]]

/-- Claim C1 (code-bug evidence): with target 1 and a backend whose first
call parses into 2 distinct records, the run reports success with a
generated count of 2 and persists 2 output lines — more than the target,
silently.  The write loop of `runGeneration` admits every unique survivor
of a batch without re-checking the remaining shortfall, and
`GenerateWithRetry` can over-deliver because nothing truncates a parsed
batch to the requested count. -/
theorem overdelivery_exceeds_target :
    (runGeneration DefaultRetryConfig fixedEnv (batchSpec 1) okTwoBackend streamSinkOps
        (NewStreamingWriter "out.jsonl" 100) 1 "2h0m0s" 2).1 = .ok () ∧
    (runGeneration DefaultRetryConfig fixedEnv (batchSpec 1) okTwoBackend streamSinkOps
        (NewStreamingWriter "out.jsonl" 100) 1 "2h0m0s" 2).2.generated = 2 ∧
    (runGeneration DefaultRetryConfig fixedEnv (batchSpec 1) okTwoBackend streamSinkOps
        (NewStreamingWriter "out.jsonl" 100) 1 "2h0m0s" 2).2.sink.writer.writer =
      .fileW ⟨["\x7b\"a\":1\x7d\n", "\x7b\"a\":2\x7d\n"], true⟩ := by
  have hgC1 : GenerateWithRetry DefaultRetryConfig fixedEnv (batchSpec 1) okTwoBackend 1 0 =
      ⟨.ok [[("a", Value.int 1)], [("a", Value.int 2)]], [⟨false, 1, 30000000000, false⟩], 1⟩ := by
    have s1 : generateWithRetryLoop DefaultRetryConfig fixedEnv (batchSpec 1) okTwoBackend
          [] 1 1 0 30000000000 0 [] =
        generateWithRetryLoop DefaultRetryConfig fixedEnv (batchSpec 1) okTwoBackend
          [[("a", Value.int 1)], [("a", Value.int 2)]] (-1) 1 0 30000000000 1
          [⟨false, 1, 30000000000, false⟩] := by
      conv_lhs => rw [generateWithRetryLoop.eq_def]
      rfl
    have s2 : generateWithRetryLoop DefaultRetryConfig fixedEnv (batchSpec 1) okTwoBackend
          [[("a", Value.int 1)], [("a", Value.int 2)]] (-1) 1 0 30000000000 1
          [⟨false, 1, 30000000000, false⟩] =
        ([[("a", Value.int 1)], [("a", Value.int 2)]], [⟨false, 1, 30000000000, false⟩], 1) := by
      conv_lhs => rw [generateWithRetryLoop.eq_def]
      rfl
    have hfull := s1.trans s2
    unfold GenerateWithRetry
    rw [show ((batchSpec 1).BatchSize : Int) = 1 from rfl,
      show DefaultRetryConfig.BaseTimeout = 30000000000 from rfl]
    rw [hfull]
    rfl
  have hg2C1 : GenerateWithRetry DefaultRetryConfig fixedEnv (batchSpec 1) okTwoBackend
      (if (1 : Int) - ((⟨0, 0, NewDeduplicator, NewStreamingWriter "out.jsonl" 100, 0⟩ :
            GenState (StreamingWriter JSONLWriter)).generated : Int) < (batchSpec 1).BatchSize
       then (1 : Int) - ((⟨0, 0, NewDeduplicator, NewStreamingWriter "out.jsonl" 100, 0⟩ :
            GenState (StreamingWriter JSONLWriter)).generated : Int)
       else (batchSpec 1).BatchSize)
      (⟨0, 0, NewDeduplicator, NewStreamingWriter "out.jsonl" 100, 0⟩ :
          GenState (StreamingWriter JSONLWriter)).nextCall =
      ⟨.ok [[("a", Value.int 1)], [("a", Value.int 2)]], [⟨false, 1, 30000000000, false⟩], 1⟩ :=
    hgC1
  have hloop : runGenerationLoop DefaultRetryConfig fixedEnv (batchSpec 1) okTwoBackend
      streamSinkOps 1 "2h0m0s" 2
      ⟨0, 0, NewDeduplicator, NewStreamingWriter "out.jsonl" 100, 0⟩ =
      (.ok (), ⟨2, 1,
        (NewDeduplicator.FilterUnique [[("a", Value.int 1)], [("a", Value.int 2)]]).2,
        ⟨⟨.fileW ⟨["\x7b\"a\":1\x7d\n", "\x7b\"a\":2\x7d\n"], false⟩, "out.jsonl", false, 2⟩,
          [], 100⟩, 1⟩) := by
    show runGenerationLoop DefaultRetryConfig fixedEnv (batchSpec 1) okTwoBackend
      streamSinkOps 1 "2h0m0s" (1 + 1)
      ⟨0, 0, NewDeduplicator, NewStreamingWriter "out.jsonl" 100, 0⟩ = _
    rw [runGenerationLoop_succ DefaultRetryConfig fixedEnv (batchSpec 1) okTwoBackend
      streamSinkOps 1 "2h0m0s" 1
      ⟨0, 0, NewDeduplicator, NewStreamingWriter "out.jsonl" 100, 0⟩]
    rw [hg2C1]
    rfl
  have hrg : runGeneration DefaultRetryConfig fixedEnv (batchSpec 1) okTwoBackend streamSinkOps
      (NewStreamingWriter "out.jsonl" 100) 1 "2h0m0s" 2 =
      (match streamSinkOps.close (runGenerationLoop DefaultRetryConfig fixedEnv (batchSpec 1)
          okTwoBackend streamSinkOps 1 "2h0m0s" 2
          ⟨0, 0, NewDeduplicator, NewStreamingWriter "out.jsonl" 100, 0⟩).2.sink with
       | (_, sink1) =>
           ((runGenerationLoop DefaultRetryConfig fixedEnv (batchSpec 1) okTwoBackend
               streamSinkOps 1 "2h0m0s" 2
               ⟨0, 0, NewDeduplicator, NewStreamingWriter "out.jsonl" 100, 0⟩).1,
             { (runGenerationLoop DefaultRetryConfig fixedEnv (batchSpec 1) okTwoBackend
                 streamSinkOps 1 "2h0m0s" 2
                 ⟨0, 0, NewDeduplicator, NewStreamingWriter "out.jsonl" 100, 0⟩).2 with
               sink := sink1 })) := rfl
  rw [hloop] at hrg
  have hfin : runGeneration DefaultRetryConfig fixedEnv (batchSpec 1) okTwoBackend streamSinkOps
      (NewStreamingWriter "out.jsonl" 100) 1 "2h0m0s" 2 =
      (.ok (), ⟨2, 1,
        (NewDeduplicator.FilterUnique [[("a", Value.int 1)], [("a", Value.int 2)]]).2,
        ⟨⟨.fileW ⟨["\x7b\"a\":1\x7d\n", "\x7b\"a\":2\x7d\n"], true⟩, "out.jsonl", false, 2⟩,
          [], 100⟩, 1⟩) := hrg.trans (by rfl)
  refine ⟨?_, ?_, ?_⟩
  · rw [hfin]
  · rw [hfin]
  · rw [hfin]

end FauxFoundry
